import Mathlib

/-!
Verification development for the dns-checker email-authentication engine.

This file gives a shallow embedding, in Lean 4, of the pure computational core of
the repository:

* `src/utils/spf-validator.ts` — domain cleaning/validation, SPF record parsing
  and the recursive SPF evaluator `validateSPF`;
* `src/utils/dmarc-validator.ts` — `parseDMARCRecord`;
* `src/utils/dns-resolver.ts` — the answer-processing part of `resolveMx`;
* `src/utils/scoring.ts` — `calculateScore`.

Conventions of the embedding:

* TypeScript strings are Lean `String`s; all string manipulation is done on the
  underlying `List Char` (`String.data`) so that every definition reduces inside
  the kernel.  JavaScript whitespace is modelled by its ASCII part (space, tab,
  newline, carriage return, vertical tab, form feed); all inputs of interest are
  ASCII.
* JavaScript regular expressions used by the source are either encoded in a
  small derivative-based regex engine (`Rx`) or, where the regex is used for
  destructuring with capture groups, translated into an equivalent
  deterministic matcher with a comment justifying the equivalence.
* The network is a parameter: `DnsEnv` maps a hostname to either the resolved
  `string[][]` TXT answer (`Except.ok`) or to the message of the error thrown
  by `resolveTxt` (`Except.error`).
* The recursive evaluator takes an explicit fuel argument and returns `none`
  when the fuel is exhausted; since the source recursion is bounded by its
  depth check, any fuel larger than the depth bound makes the result `some`.
  Alongside the result we return the trace of hostnames handed to the resolver,
  so that "performs no network call" is expressible as an empty trace.
-/

/-! ## String utilities (kernel-friendly, over `List Char`) -/

/-- ASCII part of JavaScript's whitespace class `\s` (also what `String.prototype.trim` strips). -/
def jsWhitespace (c : Char) : Bool :=
  c = ' ' || c = '\t' || c = '\n' || c = '\r' || c = '\x0b' || c = '\x0c'

/-- Strip leading and trailing JavaScript whitespace: `s.trim()`. -/
def jsTrim (s : String) : String :=
  String.mk (((s.data.dropWhile jsWhitespace).reverse.dropWhile jsWhitespace).reverse)

/-- `s.startsWith(p)` on raw character lists. -/
def strStartsWith (s p : String) : Bool :=
  List.isPrefixOf p.data s.data

/-- Substring containment, `s.includes(p)`: some suffix of `s` starts with `p`. -/
def strContains (s p : String) : Bool :=
  s.data.tails.any (fun t => List.isPrefixOf p.data t)

/-- `s.toLowerCase()` (ASCII). -/
def strToLower (s : String) : String :=
  String.mk (s.data.map Char.toLower)

/-- Worker for `strSplitOn`; `acc` is the current piece, reversed. -/
def strSplitOnAux (sep : Char) : List Char → List Char → List String
  | [], acc => [String.mk acc.reverse]
  | c :: rest, acc =>
    if c = sep then String.mk acc.reverse :: strSplitOnAux sep rest []
    else strSplitOnAux sep rest (c :: acc)

/-- `s.split(c)` for a single-character separator (JavaScript keeps empty pieces). -/
def strSplitOn (c : Char) (s : String) : List String :=
  strSplitOnAux c s.data []

/-- Accumulator worker for `splitWsRuns`; `acc` is the current run, reversed. -/
def splitWsRunsAux : List Char → List Char → List String
  | [], acc => if acc.isEmpty then [] else [String.mk acc.reverse]
  | c :: rest, acc =>
    if jsWhitespace c then
      (if acc.isEmpty then [] else [String.mk acc.reverse]) ++ splitWsRunsAux rest []
    else splitWsRunsAux rest (c :: acc)

/-- `s.trim().split(/\s+/).filter(p => p !== '')`: the maximal runs of
non-whitespace characters of `s`, in order (empty pieces never occur). -/
def splitWsRuns (cs : List Char) : List String := splitWsRunsAux cs []

/-- `array.join(sep)`. -/
def joinSep (sep : String) : List String → String
  | [] => ""
  | [s] => s
  | s :: rest => s ++ sep ++ joinSep sep rest

/-! ## A small regex engine (Brzozowski derivatives)

Used to encode, verbatim, the JavaScript regexes of the source that are applied
with `.test(...)` (whole-string or substring match without capture groups). -/

/-- Regular expressions over characters. -/
inductive Rx : Type where
  | fail : Rx
  | eps : Rx
  | cls : (Char → Bool) → Rx
  | cat : Rx → Rx → Rx
  | alt : Rx → Rx → Rx
  | star : Rx → Rx

/-- Smart sequencing (absorbs `fail`, drops `eps`). -/
def Rx.seq : Rx → Rx → Rx
  | .fail, _ => .fail
  | _, .fail => .fail
  | .eps, r => r
  | r, .eps => r
  | r1, r2 => .cat r1 r2

/-- Smart alternation (drops `fail`). -/
def Rx.or : Rx → Rx → Rx
  | .fail, r => r
  | r, .fail => r
  | r1, r2 => .alt r1 r2

/-- Does the regex accept the empty string? -/
def Rx.nullable : Rx → Bool
  | .fail => false
  | .eps => true
  | .cls _ => false
  | .cat r1 r2 => r1.nullable && r2.nullable
  | .alt r1 r2 => r1.nullable || r2.nullable
  | .star _ => true

/-- Brzozowski derivative with respect to one character. -/
def Rx.deriv : Rx → Char → Rx
  | .fail, _ => .fail
  | .eps, _ => .fail
  | .cls p, c => if p c then .eps else .fail
  | .cat r1 r2, c =>
    if r1.nullable then Rx.or (Rx.seq (r1.deriv c) r2) (r2.deriv c)
    else Rx.seq (r1.deriv c) r2
  | .alt r1 r2, c => Rx.or (r1.deriv c) (r2.deriv c)
  | .star r, c => Rx.seq (r.deriv c) (.star r)

/-- Whole-string match (the `^...$`-anchored reading of a regex). -/
def Rx.matches (r : Rx) (cs : List Char) : Bool :=
  (cs.foldl Rx.deriv r).nullable

/-- Single-character literal. -/
def Rx.lit (c : Char) : Rx := .cls (fun x => x = c)

/-- String literal. -/
def Rx.str (s : String) : Rx := s.data.foldr (fun c r => Rx.seq (Rx.lit c) r) .eps

/-- `r?`. -/
def Rx.opt (r : Rx) : Rx := .alt r .eps

/-- `r{n}` (exactly `n` copies). -/
def Rx.repN (r : Rx) : Nat → Rx
  | 0 => .eps
  | n + 1 => Rx.seq r (Rx.repN r n)

/-- `r{0,n}` (at most `n` copies). -/
def Rx.repUpTo (r : Rx) : Nat → Rx
  | 0 => .eps
  | n + 1 => Rx.opt (Rx.seq r (Rx.repUpTo r n))

/-- `r{m,n}`. -/
def Rx.repRange (r : Rx) (m n : Nat) : Rx := Rx.seq (Rx.repN r m) (Rx.repUpTo r (n - m))

/-- `r{1,}` (i.e. `r+`). -/
def Rx.plus (r : Rx) : Rx := Rx.seq r (.star r)

/-- Character class `[0-9]`. -/
def rxDigit : Rx := .cls Char.isDigit

/-- Character class `[a-z0-9]` with the `/i` flag, i.e. ASCII alphanumeric. -/
def rxAlnum : Rx := .cls (fun c => c.isAlpha || c.isDigit)

/-- Character class `[a-z0-9-]` with the `/i` flag. -/
def rxAlnumDash : Rx := .cls (fun c => c.isAlpha || c.isDigit || c = '-')

/-- Character class `[0-9a-fA-F]`. -/
def rxHex : Rx := .cls (fun c => c.isDigit || ('a' ≤ c && c ≤ 'f') || ('A' ≤ c && c ≤ 'F'))

/-- The label regex of `isValidDomain` (src/utils/spf-validator.ts line 37):
`/^[a-z0-9]([a-z0-9-]{0,61}[a-z0-9])?$/i`. -/
def labelRegex : Rx :=
  Rx.seq rxAlnum (Rx.opt (Rx.seq (Rx.repUpTo rxAlnumDash 61) rxAlnum))

/-- One dotted-quad segment of the IPv4 regex: `(25[0-5]|2[0-4][0-9]|[01]?[0-9][0-9]?)`. -/
def rxIp4Seg : Rx :=
  Rx.or (Rx.seq (Rx.str "25") (.cls (fun c => '0' ≤ c && c ≤ '5')))
    (Rx.or (Rx.seq (Rx.lit '2') (Rx.seq (.cls (fun c => '0' ≤ c && c ≤ '4')) rxDigit))
      (Rx.seq (Rx.opt (.cls (fun c => c = '0' || c = '1'))) (Rx.seq rxDigit (Rx.opt rxDigit))))

/-- The IPv4 regex of `isValidIPv4` (src/utils/spf-validator.ts line 411), including
the optional `/cidr` suffix `(\/([0-9]|[12][0-9]|3[0-2]))?`. -/
def ipv4Regex : Rx :=
  Rx.seq rxIp4Seg (Rx.seq (Rx.lit '.')
    (Rx.seq rxIp4Seg (Rx.seq (Rx.lit '.')
      (Rx.seq rxIp4Seg (Rx.seq (Rx.lit '.')
        (Rx.seq rxIp4Seg
          (Rx.opt (Rx.seq (Rx.lit '/')
            (Rx.or rxDigit
              (Rx.or (Rx.seq (.cls (fun c => c = '1' || c = '2')) rxDigit)
                (Rx.seq (Rx.lit '3') (.cls (fun c => c = '0' || c = '1' || c = '2')))))))))))))

/-- `[0-9a-fA-F]{1,4}` — one IPv6 hextet. -/
def rxH14 : Rx := Rx.repRange rxHex 1 4

/-- `[0-9a-fA-F]{1,4}:` — a leading IPv6 group. -/
def rxH14Colon : Rx := Rx.seq rxH14 (Rx.lit ':')

/-- `:[0-9a-fA-F]{1,4}` — a trailing IPv6 group. -/
def rxColonH14 : Rx := Rx.seq (Rx.lit ':') rxH14

/-- One segment of the embedded-IPv4 tail of the IPv6 regex:
`(25[0-5]|(2[0-4]|1{0,1}[0-9]){0,1}[0-9])`. -/
def rxIp6V4Seg : Rx :=
  Rx.or (Rx.seq (Rx.str "25") (.cls (fun c => '0' ≤ c && c ≤ '5')))
    (Rx.seq
      (Rx.opt (Rx.or (Rx.seq (Rx.lit '2') (.cls (fun c => '0' ≤ c && c ≤ '4')))
        (Rx.seq (Rx.repUpTo (Rx.lit '1') 1) rxDigit)))
      rxDigit)

/-- `((25[0-5]|...)\.){3,3}(25[0-5]|...)` — the embedded dotted-quad. -/
def rxIp6V4Tail : Rx :=
  Rx.seq (Rx.repN (Rx.seq rxIp6V4Seg (Rx.lit '.')) 3) rxIp6V4Seg

/-- The body (before the optional `/cidr`) of the IPv6 regex of `isValidIPv6`
(src/utils/spf-validator.ts line 418), alternative by alternative in source order. -/
def ipv6Body : Rx :=
  Rx.or (Rx.seq (Rx.repN rxH14Colon 7) rxH14)
    (Rx.or (Rx.seq (Rx.repRange rxH14Colon 1 7) (Rx.lit ':'))
      (Rx.or (Rx.seq (Rx.repRange rxH14Colon 1 6) rxColonH14)
        (Rx.or (Rx.seq (Rx.repRange rxH14Colon 1 5) (Rx.repRange rxColonH14 1 2))
          (Rx.or (Rx.seq (Rx.repRange rxH14Colon 1 4) (Rx.repRange rxColonH14 1 3))
            (Rx.or (Rx.seq (Rx.repRange rxH14Colon 1 3) (Rx.repRange rxColonH14 1 4))
              (Rx.or (Rx.seq (Rx.repRange rxH14Colon 1 2) (Rx.repRange rxColonH14 1 5))
                (Rx.or (Rx.seq rxH14 (Rx.repRange rxColonH14 1 6))
                  (Rx.or (Rx.seq (Rx.lit ':') (Rx.or (Rx.repRange rxColonH14 1 7) (Rx.lit ':')))
                    (Rx.or
                      (Rx.seq (Rx.str "fe80:")
                        (Rx.seq (Rx.repUpTo (Rx.seq (Rx.lit ':') (Rx.repUpTo rxHex 4)) 4)
                          (Rx.seq (Rx.lit '%') (Rx.plus rxAlnum))))
                      (Rx.or
                        (Rx.seq (Rx.str "::")
                          (Rx.seq
                            (Rx.repUpTo
                              (Rx.seq (Rx.str "ffff")
                                (Rx.seq (Rx.repUpTo (Rx.seq (Rx.lit ':') (Rx.repRange (Rx.lit '0') 1 4)) 1)
                                  (Rx.lit ':'))) 1)
                            rxIp6V4Tail))
                        (Rx.seq (Rx.repRange rxH14Colon 1 4)
                          (Rx.seq (Rx.lit ':') rxIp6V4Tail))))))))))))

/-- The full IPv6 regex including the optional prefix-length suffix
`(\/(12[0-8]|1[01][0-9]|[1-9]?[0-9]))?`. -/
def ipv6Regex : Rx :=
  Rx.seq ipv6Body
    (Rx.opt (Rx.seq (Rx.lit '/')
      (Rx.or (Rx.seq (Rx.str "12") (.cls (fun c => '0' ≤ c && c ≤ '8')))
        (Rx.or (Rx.seq (Rx.lit '1') (Rx.seq (.cls (fun c => c = '0' || c = '1')) rxDigit))
          (Rx.seq (Rx.opt (.cls (fun c => '1' ≤ c && c ≤ '9'))) rxDigit)))))

/-! ## Association-list model of JavaScript object maps -/

/-- JavaScript `obj[k] = v`: overwrite the binding if the key is present,
otherwise append it (insertion order is preserved). -/
def setKV {α : Type} : List (String × α) → String → α → List (String × α)
  | [], k, v => [(k, v)]
  | (k', v') :: rest, k, v =>
    if k' = k then (k', v) :: rest else (k', v') :: setKV rest k v

/-- JavaScript `obj[k]` as an `Option`. -/
def getKV? {α : Type} (m : List (String × α)) (k : String) : Option α :=
  (m.find? (fun p => p.1 = k)).map (fun p => p.2)

/-- JavaScript truthiness of an optional string (`undefined` and `''` are falsy). -/
def strTruthy : Option String → Bool
  | none => false
  | some s => s ≠ ""

/-! ## DMARC validator — `parseDMARCRecord` (src/utils/dmarc-validator.ts lines 13–33) -/

/-- `DMARC_PREFIX` (line 11). -/
def dmarcVersionTag : String := "v=DMARC1"

/-- Return shape of `parseDMARCRecord`: `{ valid, policy?, error? }`. -/
structure DMARCParse where
  valid : Bool
  policy : Option String
  error : Option String
deriving DecidableEq, Repr

/-- The tag list of a DMARC record:
`record.split(';').map(t => t.trim()).filter(Boolean)` (line 17). -/
def dmarcTags (record : String) : List String :=
  ((strSplitOn ';' record).map jsTrim).filter (fun t => t ≠ "")

/-- The tag map of a DMARC record (lines 18–24): for each tag, `tag.split('=')`,
keep it when the key is nonempty and at least one `=` was present, binding the
trimmed key to the trimmed rejoin of the remaining pieces. -/
def dmarcTagMap (record : String) : List (String × String) :=
  (dmarcTags record).foldl
    (fun tagMap tag =>
      match strSplitOn '=' tag with
      | [] => tagMap
      | key :: rest =>
        if key ≠ "" ∧ rest ≠ [] then
          setKV tagMap (jsTrim key) (jsTrim (joinSep "=" rest))
        else tagMap)
    []

/-- `parseDMARCRecord` (lines 13–33). -/
def parseDMARCRecord (record : String) : DMARCParse :=
  if ¬ (record ≠ "" ∧ strStartsWith (strToLower (jsTrim record)) (strToLower dmarcVersionTag)) then
    { valid := false, policy := none, error := some "Record does not start with v=DMARC1" }
  else
    let tagMap := dmarcTagMap record
    if ¬ strTruthy (getKV? tagMap "p") then
      { valid := false, policy := none, error := some "Missing required policy (p=) tag" }
    else
      let policy := (getKV? tagMap "p").getD ""
      if ¬ (policy = "none" ∨ policy = "quarantine" ∨ policy = "reject") then
        { valid := false, policy := none, error := some ("Invalid policy value: " ++ policy) }
      else
        { valid := true, policy := some policy, error := none }

/-! ## DNS resolver — the MX answer processing of `resolveMx`
(src/utils/dns-resolver.ts lines 220–233) -/

/-- `parseInt(str, 10)`: skip leading whitespace, read an optional sign, then a
maximal run of decimal digits; `NaN` (here `none`) when that run is empty. -/
def jsParseInt10 (s : String) : Option Int :=
  let cs := s.data.dropWhile jsWhitespace
  let signed : Int × List Char :=
    match cs with
    | '-' :: t => (-1, t)
    | '+' :: t => (1, t)
    | t => (1, t)
  let digits := signed.2.takeWhile Char.isDigit
  if digits.isEmpty then none
  else some (signed.1 * (Int.ofNat (digits.foldl (fun n c => n * 10 + (c.toNat - '0'.toNat)) 0)))

/-- Drop one trailing `'.'` if present: `.replace(/\.$/, '')`. -/
def dropTrailingDot (s : String) : String :=
  match s.data.reverse with
  | '.' :: rest => String.mk rest.reverse
  | _ => s

/-- One MX record, `{ exchange, priority }`. -/
structure MxRecord where
  exchange : String
  priority : Int
deriving DecidableEq, Repr

/-- Parsing of one MX answer's `data` (lines 221–228): split on `' '`, the first
piece is the priority (`parseInt(..., 10)`), the rejoined rest — lower-cased,
with a trailing dot removed — is the exchange; `null` (here `none`) when the
priority is `NaN` or the exchange is empty. -/
def parseMxData (data : String) : Option MxRecord :=
  match strSplitOn ' ' data with
  | [] => none
  | priorityStr :: exchangeParts =>
    let exchange := dropTrailingDot (strToLower (joinSep " " exchangeParts))
    match jsParseInt10 priorityStr with
    | none => none
    | some priority => if exchange = "" then none else some ⟨exchange, priority⟩

/-- The whole answer-processing pipeline of `resolveMx` on a successful response
(lines 220–231): parse each answer's `data`, drop the malformed ones, and sort
ascending by priority.  `sort((a, b) => a.priority - b.priority)` is a stable
ascending sort; insertion sort with `≤` is also stable and ascending, so the
two agree on every input. -/
def processMxAnswers (answers : List String) : List MxRecord :=
  (answers.filterMap parseMxData).insertionSort (fun a b => a.priority ≤ b.priority)

/-! ## Scoring engine — `calculateScore` (src/utils/scoring.ts) -/

/-- The `details` object of `EmailAuthResult['spf']`. -/
structure SPFScoreDetails where
  dnsLookupCount : Nat
  includes : List String
  redirects : List String
  allMechanisms : List String
  warnings : List String
  errors : List String
deriving Repr, DecidableEq

/-- The `spf` component of `EmailAuthResult`. -/
structure SPFScoreInput where
  valid : Bool
  record : Option String
  error : Option String
  details : Option SPFScoreDetails
deriving Repr, DecidableEq

/-- `DKIMValidationResult` (src/types/dkim.d.ts). -/
structure DKIMSelectorOutcome where
  selector : String
  domain : String
  valid : Bool
  error : Option String
  record : Option String
deriving Repr, DecidableEq

/-- The `details` object of `EmailAuthResult['dkim']`. -/
structure DKIMScoreDetails where
  selectorsChecked : List String
  errors : List String
deriving Repr, DecidableEq

/-- The `dkim` component of `EmailAuthResult`. -/
structure DKIMScoreInput where
  valid : Bool
  selectors : List DKIMSelectorOutcome
  selector : Option String
  record : Option String
  error : Option String
  details : Option DKIMScoreDetails
deriving Repr, DecidableEq

/-- The `dmarc` component of `EmailAuthResult`. -/
structure DMARCScoreInput where
  valid : Bool
  record : Option String
  policy : Option String
  error : Option String
deriving Repr, DecidableEq

/-- Input shape of `calculateScore` (scoring.ts lines 5–36). -/
structure EmailAuthResult where
  spf : SPFScoreInput
  dkim : DKIMScoreInput
  dmarc : DMARCScoreInput
deriving Repr, DecidableEq

/-- `ScoreBreakdown` (scoring.ts lines 37–45). -/
structure ScoreBreakdown where
  total : Int
  spf : Int
  dkim : Int
  dmarc : Int
  details : List (String × Int)
  reasons : List (String × String)
  recommendations : List (String × String)
deriving Repr, DecidableEq

/-- The mutable locals of `calculateScore` (lines 56–63), threaded through the
three category sections. -/
structure ScoringState where
  spfScore : Int
  dkimScore : Int
  dmarcScore : Int
  bonusScore : Int
  details : List (String × Int)
  reasons : List (String × String)
  recommendations : List (String × String)
deriving Repr, DecidableEq

/-- `details['k'] || 0` (a missing key reads as `undefined`, hence 0). -/
def getKVInt (m : List (String × Int)) (k : String) : Int :=
  (getKV? m k).getD 0

/-- `/[-~?+]all/.test(m)` — unanchored: some position of `m` has a qualifier
character followed by `all`. -/
def testQualAll (m : String) : Bool :=
  m.data.tails.any (fun t =>
    match t with
    | c :: rest => (c = '-' || c = '~' || c = '?' || c = '+') && List.isPrefixOf ['a', 'l', 'l'] rest
    | [] => false)

/-- Leftmost occurrence of the literal `pat` followed by at least one character
of class `cls`; returns the maximal run of `cls` characters after `pat`
(the capture of a JavaScript regex `pat(cls+)` under `String.prototype.match`). -/
def firstMatchAfter (pat : List Char) (cls : Char → Bool) (s : String) : Option (List Char) :=
  (s.data.tails.find? (fun t =>
    List.isPrefixOf pat t &&
      match t.drop pat.length with
      | c :: _ => cls c
      | [] => false)).map
    (fun t => (t.drop pat.length).takeWhile cls)

/-- Numeric value of a run of decimal digits (what `parseInt` yields on the
pure-digit capture of `/bits=(\d+)/`). -/
def digitRunVal (ds : List Char) : Nat :=
  ds.foldl (fun n c => n * 10 + (c.toNat - '0'.toNat)) 0

/-- The per-selector key-length estimate of the DKIM section (lines 136–149):
`record.match(/bits=(\d+)/)` wins; otherwise the length of the base64 capture of
`/p=([A-Za-z0-9+\/=]+)/` estimates the bits (`len = length*6/8; >256 → 2048,
>128 → 1024, else 512`); 0 when neither matches.  The fractional comparisons
`length*6/8 > 256` and `> 128` are rendered exactly as `3*length > 1024` and
`3*length > 512`. -/
def selBits (record : String) : Int :=
  match firstMatchAfter "bits=".data Char.isDigit record with
  | some ds => Int.ofNat (digitRunVal ds)
  | none =>
    match firstMatchAfter "p=".data
        (fun c => c.isAlpha || c.isDigit || c = '+' || c = '/' || c = '=') record with
    | some key =>
      if 3 * key.length > 1024 then 2048
      else if 3 * key.length > 512 then 1024
      else 512
    | none => 0

/-- SPF section of `calculateScore` (lines 65–123). -/
def scoreSPFSection (spf : SPFScoreInput) (st : ScoringState) : ScoringState :=
  let spfValid := spf.valid &&
    match spf.record with
    | some r => strContains r "v=spf1"
    | none => false
  if spfValid then
    -- lines 68–69
    let st := { st with spfScore := st.spfScore + 10, details := setKV st.details "spf_exists" 10 }
    -- lines 71–78 (`!result.spf.error && (!details || details.errors.length === 0)`)
    let st :=
      if !strTruthy spf.error &&
          (match spf.details with
           | none => true
           | some d => d.errors.length = 0) then
        { st with spfScore := st.spfScore + 5, details := setKV st.details "spf_syntax" 5 }
      else
        { st with details := setKV st.details "spf_syntax" 0,
                  reasons := setKV st.reasons "spf" "SPF record has syntax errors.",
                  recommendations :=
                    setKV st.recommendations "spf" "Fix SPF syntax errors to ensure proper evaluation." }
    -- lines 80–83
    let allMech :=
      match spf.details with
      | some d => (d.allMechanisms.find? testQualAll).getD ""
      | none => ""
    -- lines 84–104
    let st :=
      if strStartsWith allMech "-all" then
        { st with spfScore := st.spfScore + 10, details := setKV st.details "spf_all" 10,
                  reasons := setKV st.reasons "spf" "SPF uses strict \"-all\" policy.",
                  recommendations := setKV st.recommendations "spf" "No change needed. This is optimal." }
      else if strStartsWith allMech "~all" then
        { st with spfScore := st.spfScore + 8, details := setKV st.details "spf_all" 8,
                  reasons := setKV st.reasons "spf" "SPF uses softfail \"~all\" policy.",
                  recommendations :=
                    setKV st.recommendations "spf"
                      "Consider switching to strict \"-all\" for maximum protection." }
      else if strStartsWith allMech "+all" then
        { st with details := setKV (setKV st.details "spf_all" 0) "spf_no_plusall" 0,
                  spfScore := st.spfScore - 5,
                  reasons := setKV st.reasons "spf" "SPF uses permissive \"+all\" which is insecure.",
                  recommendations :=
                    setKV st.recommendations "spf"
                      "Remove or replace \"+all\" with \"-all\" or \"~all\" to prevent spoofing." }
      else
        { st with details := setKV st.details "spf_all" 0,
                  reasons := setKV st.reasons "spf" "SPF record does not specify an \"all\" mechanism.",
                  recommendations :=
                    setKV st.recommendations "spf"
                      "Add an \"all\" mechanism (preferably \"-all\") to define policy for all mail sources." }
    -- lines 106–109
    let st :=
      if allMech ≠ "" && !strStartsWith allMech "+all" then
        { st with spfScore := st.spfScore + 5, details := setKV st.details "spf_no_plusall" 5 }
      else st
    -- lines 111–114
    if !strTruthy (getKV? st.reasons "spf") then
      { st with reasons := setKV st.reasons "spf" "SPF record is present and valid.",
                recommendations := setKV st.recommendations "spf" "No change needed. This is optimal." }
    else st
  else
    -- lines 115–123
    { st with
      details := setKV (setKV (setKV (setKV st.details "spf_exists" 0) "spf_syntax" 0) "spf_all" 0)
        "spf_no_plusall" 0,
      spfScore := 0,
      reasons := setKV st.reasons "spf" "SPF record is missing or invalid.",
      recommendations :=
        setKV st.recommendations "spf"
          "Add a valid SPF record with proper syntax and a strict \"-all\" policy." }

/-- DKIM section of `calculateScore` (lines 125–182).  The source also counts
`validSelectorCount` in the key-strength loop; it is never read afterwards, so
the loop here keeps only `maxKeyLen`. -/
def scoreDKIMSection (dkim : DKIMScoreInput) (st : ScoringState) : ScoringState :=
  let dkimValid := decide (dkim.selectors.length > 0) &&
    dkim.selectors.any (fun sel => sel.valid && strTruthy sel.record)
  if dkimValid then
    -- lines 128–129
    let st := { st with details := setKV st.details "dkim_exists" 15, dkimScore := st.dkimScore + 15 }
    -- lines 131–152
    let maxKeyLen := dkim.selectors.foldl
      (fun acc sel =>
        if sel.valid && strTruthy sel.record then
          let bits := selBits (sel.record.getD "")
          if bits > acc then bits else acc
        else acc)
      0
    -- lines 153–162
    let st :=
      if maxKeyLen ≥ 1024 then
        { st with dkimScore := st.dkimScore + 10, details := setKV st.details "dkim_key_strength" 10,
                  reasons := setKV st.reasons "dkim" "DKIM key strength is adequate (>=1024 bits).",
                  recommendations :=
                    setKV st.recommendations "dkim" "No change needed. This is industry standard." }
      else
        { st with details := setKV st.details "dkim_key_strength" 0,
                  reasons := setKV st.reasons "dkim" "DKIM key strength is weak (<1024 bits).",
                  recommendations :=
                    setKV st.recommendations "dkim"
                      "Upgrade DKIM keys to at least 1024 bits for security." }
    -- lines 164–169
    let st :=
      if decide (dkim.selectors.length > 1) then
        { st with bonusScore := st.bonusScore + 5,
                  details := setKV st.details "dkim_multiple_selectors_bonus" 5,
                  reasons :=
                    setKV st.reasons "dkim" "Multiple DKIM selectors detected (key rotation enabled).",
                  recommendations :=
                    setKV st.recommendations "dkim" "No change needed. Key rotation is a best practice." }
      else st
    -- lines 171–174
    if !strTruthy (getKV? st.reasons "dkim") then
      { st with reasons := setKV st.reasons "dkim" "DKIM record is present and valid.",
                recommendations := setKV st.recommendations "dkim" "No change needed. This is optimal." }
    else st
  else
    -- lines 175–182
    { st with
      details := setKV (setKV (setKV st.details "dkim_exists" 0) "dkim_key_strength" 0)
        "dkim_multiple_selectors_bonus" 0,
      dkimScore := 0,
      reasons := setKV st.reasons "dkim" "DKIM record is missing or invalid.",
      recommendations :=
        setKV st.recommendations "dkim"
          "Add a valid DKIM record with at least 1024-bit key and enable key rotation if possible." }

/-- DMARC section of `calculateScore` (lines 184–228). -/
def scoreDMARCSection (dmarc : DMARCScoreInput) (st : ScoringState) : ScoringState :=
  let dmarcValid := dmarc.valid &&
    match dmarc.record with
    | some r => strContains r "v=DMARC1"
    | none => false
  if dmarcValid then
    -- lines 187–188
    let st := { st with dmarcScore := st.dmarcScore + 10, details := setKV st.details "dmarc_exists" 10 }
    -- lines 189–208
    let st :=
      if dmarc.policy = some "reject" then
        { st with dmarcScore := st.dmarcScore + 20, details := setKV st.details "dmarc_policy" 20,
                  reasons :=
                    setKV st.reasons "dmarc" "DMARC policy is set to \"reject\" (full enforcement).",
                  recommendations := setKV st.recommendations "dmarc" "No change needed. This is optimal." }
      else if dmarc.policy = some "quarantine" then
        { st with dmarcScore := st.dmarcScore + 15, details := setKV st.details "dmarc_policy" 15,
                  reasons :=
                    setKV st.reasons "dmarc" "DMARC policy is set to \"quarantine\" (partial enforcement).",
                  recommendations :=
                    setKV st.recommendations "dmarc"
                      "Consider upgrading DMARC policy to \"reject\" for full protection." }
      else if dmarc.policy = some "none" then
        { st with dmarcScore := st.dmarcScore + 5, details := setKV st.details "dmarc_policy" 5,
                  reasons := setKV st.reasons "dmarc" "DMARC policy is set to \"none\" (monitoring only).",
                  recommendations :=
                    setKV st.recommendations "dmarc"
                      "Increase DMARC policy to \"quarantine\" or \"reject\" to enforce protection." }
      else
        { st with details := setKV st.details "dmarc_policy" 0,
                  reasons := setKV st.reasons "dmarc" "DMARC policy is not set or unrecognized.",
                  recommendations :=
                    setKV st.recommendations "dmarc"
                      "Set DMARC policy to \"reject\" or \"quarantine\" for enforcement." }
    -- lines 210–215 (`/rua=/i.test(record)`)
    let st :=
      if (match dmarc.record with
          | some r => strContains (strToLower r) "rua="
          | none => false) then
        { st with bonusScore := st.bonusScore + 5, details := setKV st.details "dmarc_rua_bonus" 5,
                  reasons := setKV st.reasons "dmarc" "DMARC reporting (rua) is enabled.",
                  recommendations :=
                    setKV st.recommendations "dmarc" "No change needed. Reporting is recommended." }
      else st
    -- lines 217–220
    if !strTruthy (getKV? st.reasons "dmarc") then
      { st with reasons := setKV st.reasons "dmarc" "DMARC record is present and valid.",
                recommendations := setKV st.recommendations "dmarc" "No change needed. This is optimal." }
    else st
  else
    -- lines 221–228
    { st with
      details := setKV (setKV (setKV st.details "dmarc_exists" 0) "dmarc_policy" 0)
        "dmarc_rua_bonus" 0,
      dmarcScore := 0,
      reasons := setKV st.reasons "dmarc" "DMARC record is missing or invalid.",
      recommendations :=
        setKV st.recommendations "dmarc"
          "Add a valid DMARC record with policy set to \"reject\" and enable rua reporting." }

/-- `calculateScore` (lines 55–257): run the three sections, then recompute each
category score as the sum of its `details` entries (lines 230–246) — the
incrementally accumulated scores are discarded at that point. -/
def calculateScore (result : EmailAuthResult) : ScoreBreakdown :=
  let st0 : ScoringState := ⟨0, 0, 0, 0, [], [], []⟩
  let st1 := scoreSPFSection result.spf st0
  let st2 := scoreDKIMSection result.dkim st1
  let st3 := scoreDMARCSection result.dmarc st2
  let spfScore := getKVInt st3.details "spf_exists" + getKVInt st3.details "spf_syntax" +
    getKVInt st3.details "spf_all" + getKVInt st3.details "spf_no_plusall"
  let dkimScore := getKVInt st3.details "dkim_exists" + getKVInt st3.details "dkim_key_strength" +
    getKVInt st3.details "dkim_multiple_selectors_bonus"
  let dmarcScore := getKVInt st3.details "dmarc_exists" + getKVInt st3.details "dmarc_policy" +
    getKVInt st3.details "dmarc_rua_bonus"
  { total := spfScore + dkimScore + dmarcScore,
    spf := spfScore,
    dkim := dkimScore,
    dmarc := dmarcScore,
    details := st3.details,
    reasons := st3.reasons,
    recommendations := st3.recommendations }

/-! ## SPF validator (src/utils/spf-validator.ts) -/

/-- `SPF_PREFIX` (line 4). -/
def spfVersionTag : String := "v=spf1"

/-- `MAX_DNS_LOOKUPS` (line 6). -/
def MAX_DNS_LOOKUPS : Nat := 10

/-- `MAX_RECURSION_DEPTH` (line 8). -/
def MAX_RECURSION_DEPTH : Nat := 5

/-- `MAX_INCLUDES` (line 10). -/
def MAX_INCLUDES : Nat := 10

/-- `MAX_MECHANISM_LENGTH` (line 12). -/
def MAX_MECHANISM_LENGTH : Nat := 255

/-- `isValidDomain` (lines 15–42).  String length is character count (all
inputs of interest are ASCII, where this agrees with JavaScript's UTF-16
`length`). -/
def isValidDomain (domain : String) : Bool :=
  if domain = "" then false
  else if domain.data.any (fun c =>
      c = '[' || c = ']' || c = ' ' || c = '\t' || c = '\n' || c = '\r') then false
  else if strStartsWith domain "." || List.isSuffixOf ".".data domain.data then false
  else if domain.data.length > 253 || !domain.data.contains '.' then false
  else (strSplitOn '.' domain).all (fun label =>
    decide (label.data.length > 0) && decide (label.data.length ≤ 63) &&
      labelRegex.matches label.data)

/-- Remove one leading occurrence of `c`. -/
def dropLeadChar (c : Char) (s : String) : String :=
  match s.data with
  | c' :: rest => if c' = c then String.mk rest else s
  | [] => s

/-- Remove one trailing occurrence of `c`. -/
def dropTailChar (c : Char) (s : String) : String :=
  match s.data.reverse with
  | c' :: rest => if c' = c then String.mk rest.reverse else s
  | [] => s

/-- `cleanDomain` (lines 45–56): trim, strip one surrounding pair of brackets
(`/^\[|\]$/g`) then of quotes (`/^"|"$/g`), trim again, and keep the result only
if `isValidDomain` accepts it. -/
def cleanDomain (domain : String) : Option String :=
  if domain = "" then none
  else
    let cleaned := jsTrim (dropTailChar '"' (dropLeadChar '"'
      (dropTailChar ']' (dropLeadChar '[' (jsTrim domain)))))
    if isValidDomain cleaned then some cleaned else none

/-- `isValidIPv4` (lines 410–413). -/
def isValidIPv4 (ip : String) : Bool := ipv4Regex.matches ip.data

/-- `isValidIPv6` (lines 416–420). -/
def isValidIPv6 (ip : String) : Bool := ipv6Regex.matches ip.data

/-- The character class `[a-zA-Z0-9._-]` of the mechanism regex (line 325). -/
def spfNameChar (c : Char) : Bool :=
  c.isAlpha || c.isDigit || c = '.' || c = '_' || c = '-'

/-- Match `([a-zA-Z0-9._-]+)(?:[:=](.+))?$` against `cs`: a nonempty maximal
run of name characters, then either the end of input or a `:`/`=` followed by a
nonempty value (the rest of the token).  Because name characters never include
`:` or `=`, the regex's greedy name run is its only viable choice, so this
deterministic matcher is equivalent to the backtracking regex. -/
def nameValueMatch (cs : List Char) : Option (String × Option String) :=
  let name := cs.takeWhile spfNameChar
  if name.isEmpty then none
  else
    match cs.drop name.length with
    | [] => some (String.mk name, none)
    | c :: rest =>
      if (c = ':' || c = '=') && !rest.isEmpty then some (String.mk name, some (String.mk rest))
      else none

/-- `part.match(/^([+~?-]?)([a-zA-Z0-9._-]+)(?:[:=](.+))?$/)` (line 325),
returning `(qualifier, type, value?)`.  The optional qualifier is tried first
(the regex is greedy); if matching fails with the first character consumed as a
qualifier, the regex backtracks to an empty qualifier — that retry can only
succeed when the first character is also a name character, i.e. for `'-'`. -/
def mechanismMatch (part : String) : Option (String × String × Option String) :=
  match part.data with
  | [] => none
  | c :: rest =>
    if c = '+' || c = '~' || c = '?' || c = '-' then
      match nameValueMatch rest with
      | some p => some (String.mk [c], p.1, p.2)
      | none => (nameValueMatch (c :: rest)).map (fun p => ("", p.1, p.2))
    else (nameValueMatch (c :: rest)).map (fun p => ("", p.1, p.2))

/-- The `mechanisms` object of `SPFRecord` (src/types/spf.d.ts); the source
fields `include` and `exists` are named `includeMechs` and `existsMechs` here
(both words are reserved in Lean). -/
structure SPFMechanisms where
  all : Option String
  ip4 : List String
  ip6 : List String
  a : List String
  mx : List String
  includeMechs : List String
  existsMechs : List String
  redirect : Option String
  exp : Option String
deriving Repr, DecidableEq

/-- `SPFRecord` (src/types/spf.d.ts). -/
structure SPFRecord where
  raw : String
  version : String
  mechanisms : SPFMechanisms
  modifiers : List (String × String)
deriving Repr, DecidableEq

/-- One iteration of the part loop of `parseSPFRecord` (lines 321–405). -/
def applySPFPart (rec : SPFRecord) (part : String) : SPFRecord :=
  match mechanismMatch part with
  | none =>
    -- lines 327–337: unmatched parts holding `=` (except `exp=...`) become modifiers;
    -- `const [key, val] = part.split('=')` reads only the first two pieces
    if strContains part "=" && !strStartsWith (strToLower part) "exp=" then
      match strSplitOn '=' part with
      | [] => rec
      | key :: rest =>
        match rest.head? with
        | some val =>
          let cleanKey := strToLower (jsTrim key)
          let cleanVal := jsTrim val
          if cleanKey ≠ "" && cleanVal ≠ "" then
            { rec with modifiers := setKV rec.modifiers cleanKey cleanVal }
          else rec
        | none => rec
    else rec
  | some (qualifier, ty, value) =>
    let mechName := strToLower ty
    let cleanValue := (value.map jsTrim).getD ""
    if mechName = "all" then
      { rec with mechanisms := { rec.mechanisms with
          all := some ((if qualifier = "" then "+" else qualifier) ++ "all") } }
    else if mechName = "ip4" then
      if cleanValue ≠ "" && isValidIPv4 cleanValue then
        { rec with mechanisms := { rec.mechanisms with ip4 := rec.mechanisms.ip4 ++ [cleanValue] } }
      else rec
    else if mechName = "ip6" then
      if cleanValue ≠ "" && isValidIPv6 cleanValue then
        { rec with mechanisms := { rec.mechanisms with ip6 := rec.mechanisms.ip6 ++ [cleanValue] } }
      else rec
    else if mechName = "a" || mechName = "mx" then
      let domainSpec := ((strSplitOn '/' cleanValue).headD "")
      if domainSpec = "" || isValidDomain domainSpec then
        if mechName = "a" then
          { rec with mechanisms := { rec.mechanisms with a := rec.mechanisms.a ++ [cleanValue] } }
        else
          { rec with mechanisms := { rec.mechanisms with mx := rec.mechanisms.mx ++ [cleanValue] } }
      else rec
    else if mechName = "include" || mechName = "exists" then
      if cleanValue ≠ "" then
        let domainSpec := ((strSplitOn '/' cleanValue).headD "")
        if isValidDomain domainSpec && decide (domainSpec.data.length ≤ MAX_MECHANISM_LENGTH) then
          if mechName = "include" then
            { rec with mechanisms :=
                { rec.mechanisms with includeMechs := rec.mechanisms.includeMechs ++ [cleanValue] } }
          else
            { rec with mechanisms :=
                { rec.mechanisms with existsMechs := rec.mechanisms.existsMechs ++ [cleanValue] } }
        else rec
      else rec
    else if mechName = "redirect" then
      if cleanValue ≠ "" then
        let domainSpec := ((strSplitOn '/' cleanValue).headD "")
        if isValidDomain domainSpec && decide (domainSpec.data.length ≤ MAX_MECHANISM_LENGTH) then
          { rec with mechanisms := { rec.mechanisms with redirect := some cleanValue } }
        else rec
      else rec
    else if mechName = "exp" then
      if cleanValue ≠ "" then
        { rec with mechanisms := { rec.mechanisms with exp := some cleanValue } }
      else rec
    else rec

/-- `parseSPFRecord` (lines 293–407): `null` unless the trimmed record starts
with `v=spf1`; otherwise fold the whitespace-split parts of
`record.substring(6)` over the empty record. -/
def parseSPFRecord (record : String) : Option SPFRecord :=
  if ¬ (record ≠ "" ∧ strStartsWith (jsTrim record) spfVersionTag) then none
  else
    let base : SPFRecord :=
      { raw := record, version := spfVersionTag,
        mechanisms := ⟨none, [], [], [], [], [], [], none, none⟩, modifiers := [] }
    some ((splitWsRuns (record.data.drop spfVersionTag.data.length)).foldl applySPFPart base)

/-- `SPFValidationResult` (src/types/spf.d.ts) — a tree: `includes` and
`redirects` hold `{ domain, result }` child pairs. -/
inductive SPFValidationResult : Type where
  | mk :
    (isValid : Bool) → (record : Option String) →
    (errors : List String) → (warnings : List String) →
    (dnsLookupCount : Nat) →
    (includes : List (String × SPFValidationResult)) →
    (redirects : List (String × SPFValidationResult)) →
    (allMechanisms : List String) → SPFValidationResult

/-- Field accessor: `isValid`. -/
def SPFValidationResult.isValid : SPFValidationResult → Bool
  | .mk v _ _ _ _ _ _ _ => v

/-- Field accessor: `record`. -/
def SPFValidationResult.record : SPFValidationResult → Option String
  | .mk _ r _ _ _ _ _ _ => r

/-- Field accessor: `errors`. -/
def SPFValidationResult.errors : SPFValidationResult → List String
  | .mk _ _ e _ _ _ _ _ => e

/-- Field accessor: `warnings`. -/
def SPFValidationResult.warnings : SPFValidationResult → List String
  | .mk _ _ _ w _ _ _ _ => w

/-- Field accessor: `dnsLookupCount`. -/
def SPFValidationResult.dnsLookupCount : SPFValidationResult → Nat
  | .mk _ _ _ _ n _ _ _ => n

/-- Field accessor: `includes`. -/
def SPFValidationResult.includes : SPFValidationResult → List (String × SPFValidationResult)
  | .mk _ _ _ _ _ i _ _ => i

/-- Field accessor: `redirects`. -/
def SPFValidationResult.redirects : SPFValidationResult → List (String × SPFValidationResult)
  | .mk _ _ _ _ _ _ r _ => r

/-- Field accessor: `allMechanisms`. -/
def SPFValidationResult.allMechanisms : SPFValidationResult → List String
  | .mk _ _ _ _ _ _ _ a => a

/-- The failure literal used by every early return of `validateSPF`
(`{ isValid: false, record: null, errors, warnings: [], dnsLookupCount: 0,
includes: [], redirects: [], allMechanisms: [] }`). -/
def spfFailure (errors : List String) : SPFValidationResult :=
  .mk false none errors [] 0 [] [] []

/-- The network, as seen through `resolveTxt`: either the `string[][]` answer,
or the message of the error `resolveTxt` threw. -/
def DnsEnv : Type := String → Except String (List (List String))

/-- State of the include loop of `validateSPF` (lines 189–214): the mutated
fields of `result`, plus the trace of hostnames handed to the resolver. -/
structure IncState where
  isValid : Bool
  errors : List String
  dnsLookupCount : Nat
  includes : List (String × SPFValidationResult)
  trace : List String

/-- The include loop of `validateSPF` (lines 189–214).  `recur` is the
recursive evaluation of one include target (the source calls
`validateSPF(include, depth + 1, currentDomains, includeCount + 1)`); note that
`includeCount` is the caller's parameter and is not advanced between loop
iterations. -/
def processIncludes (recur : String → Option (SPFValidationResult × List String))
    (includeCount : Nat) (st : IncState) : List String → Option IncState
  | [] => some st
  | inc :: rest =>
    if includeCount ≥ MAX_INCLUDES then
      -- lines 192–196: record the error, mark invalid, `break`
      some { st with
        errors := st.errors ++
          ["Maximum number of includes/redirects (" ++ toString MAX_INCLUDES ++ ") reached"],
        isValid := false }
    else
      match recur inc with
      | none => none
      | some (includeResult, childTrace) =>
        -- lines 198–208
        let st := { st with
          includes := st.includes ++ [(inc, includeResult)],
          dnsLookupCount := st.dnsLookupCount + includeResult.dnsLookupCount,
          trace := st.trace ++ childTrace }
        let st :=
          if !includeResult.isValid then
            { st with
              errors := st.errors ++ ["Include for " ++ inc ++ " failed validation"],
              isValid := false }
          else st
        processIncludes recur includeCount st rest

/-- One call of `validateSPF` (lines 71–291), with the recursive call
abstracted as `recur`.  Returns `none` only when `recur` does (fuel
exhaustion); otherwise `some (result, trace)` where `trace` lists the hostnames
handed to `resolveTxt`, in order. -/
def spfStep (env : DnsEnv)
    (recur : String → Nat → List String → Nat → Option (SPFValidationResult × List String))
    (domain : String) (depth : Nat) (parentDomains : List String) (includeCount : Nat) :
    Option (SPFValidationResult × List String) :=
  -- lines 77–89
  if includeCount > MAX_INCLUDES then
    some (spfFailure
      ["Maximum number of includes/redirects (" ++ toString MAX_INCLUDES ++ ") exceeded"], [])
  else
    -- lines 90–103
    match cleanDomain domain with
    | none => some (spfFailure ["Invalid domain format: " ++ domain], [])
    | some dom =>
      -- lines 118–130
      if depth > MAX_RECURSION_DEPTH then
        some (spfFailure
          ["Maximum recursion depth (" ++ toString MAX_RECURSION_DEPTH ++ ") exceeded"], [])
      -- lines 132–144 (`parentDomains` is a `Set` with insertion order; a list here)
      else if parentDomains.contains dom then
        some (spfFailure
          ["Circular reference detected in SPF records: " ++
            joinSep " -> " parentDomains ++ " -> " ++ dom], [])
      else
        -- line 147
        let currentDomains := parentDomains ++ [dom]
        -- line 154; a thrown resolver error lands in the catch of lines 274–290
        match env dom with
        | .error msg => some (spfFailure [msg], [dom])
        | .ok txtRecords =>
          -- lines 155–157
          let spfRecords := txtRecords.flatten.filter
            (fun r => strStartsWith (jsTrim r) spfVersionTag)
          match spfRecords with
          -- lines 159–163
          | [] => some (.mk false none ["No SPF record found"] [] 0 [] [] [], [dom])
          | spfRecord :: restRecords =>
            -- lines 166–169: `spfRecords.length > 1`
            let multiErrors :=
              if restRecords.isEmpty then []
              else ["Multiple SPF records found. Only one SPF record is allowed per domain"]
            -- lines 171–181
            match parseSPFRecord spfRecord with
            | none =>
              some (.mk false (some spfRecord) (multiErrors ++ ["Invalid SPF record format"])
                [] 1 [] [] [], [dom])
            | some parsedRecord =>
              -- lines 183–187: at this point `result.dnsLookupCount` is 1 (dead check, kept)
              let lookupErrors :=
                if decide (1 > MAX_DNS_LOOKUPS) then
                  ["Exceeded maximum of " ++ toString MAX_DNS_LOOKUPS ++ " DNS lookups"]
                else []
              let st0 : IncState :=
                ⟨restRecords.isEmpty && !(decide (1 > MAX_DNS_LOOKUPS)),
                  multiErrors ++ lookupErrors, 1, [], [dom]⟩
              -- lines 189–214
              match processIncludes
                  (fun inc => recur inc (depth + 1) currentDomains (includeCount + 1))
                  includeCount st0 parsedRecord.mechanisms.includeMechs with
              | none => none
              | some st1 =>
                -- lines 258–266: the record's own effective `all`
                let ownAll :=
                  match parsedRecord.mechanisms.all with
                  | some a => [a]
                  | none => []
                -- lines 216–256
                if st1.isValid then
                  match parsedRecord.mechanisms.redirect with
                  | some redirectDomain =>
                    if includeCount ≥ MAX_INCLUDES then
                      -- lines 220–222
                      some (.mk false (some spfRecord)
                        (st1.errors ++
                          ["Maximum number of includes/redirects (" ++
                            toString MAX_INCLUDES ++ ") reached"])
                        [] st1.dnsLookupCount st1.includes [] ownAll, st1.trace)
                    else
                      match recur redirectDomain (depth + 1) currentDomains (includeCount + 1) with
                      | none => none
                      | some (redirectResult, redirectTrace) =>
                        if redirectResult.isValid then
                          -- lines 243–249: the redirect target's `allMechanisms` is propagated
                          some (.mk true (some spfRecord) st1.errors
                            (redirectResult.warnings.map
                              (fun w => "Redirect (" ++ redirectDomain ++ "): " ++ w))
                            (st1.dnsLookupCount + redirectResult.dnsLookupCount)
                            st1.includes [(redirectDomain, redirectResult)]
                            redirectResult.allMechanisms,
                            st1.trace ++ redirectTrace)
                        else
                          -- lines 240–242
                          some (.mk false (some spfRecord)
                            (st1.errors ++
                              ["Redirect to " ++ redirectDomain ++
                                " failed validation (target record invalid or led to error)"])
                            [] (st1.dnsLookupCount + redirectResult.dnsLookupCount)
                            st1.includes [(redirectDomain, redirectResult)] ownAll,
                            st1.trace ++ redirectTrace)
                  | none =>
                    some (.mk st1.isValid (some spfRecord) st1.errors []
                      st1.dnsLookupCount st1.includes [] ownAll, st1.trace)
                else
                  some (.mk st1.isValid (some spfRecord) st1.errors []
                    st1.dnsLookupCount st1.includes [] ownAll, st1.trace)

/-- `validateSPF` (lines 71–291) with explicit fuel; `none` is fuel exhaustion
(unreachable from a top-level call with fuel above the depth bound, since every
recursive call raises `depth`). -/
def validateSPF (env : DnsEnv) :
    Nat → String → Nat → List String → Nat → Option (SPFValidationResult × List String)
  | 0, _, _, _, _ => none
  | fuel + 1, domain, depth, parentDomains, includeCount =>
    spfStep env (fun d dp vs ic => validateSPF env fuel d dp vs ic)
      domain depth parentDomains includeCount

/-- Every node of the result tree carries at most one effective `all`
mechanism. -/
def allMechOK : SPFValidationResult → Bool
  | .mk _ _ _ _ _ incs reds ams =>
    decide (ams.length ≤ 1) &&
    (incs.attach.all (fun p => allMechOK p.1.2) &&
      reds.attach.all (fun p => allMechOK p.1.2))
decreasing_by
  · obtain ⟨⟨s, t⟩, hmem⟩ := p
    have h := List.sizeOf_lt_of_mem hmem
    simp at h ⊢
    omega
  · obtain ⟨⟨s, t⟩, hmem⟩ := p
    have h := List.sizeOf_lt_of_mem hmem
    simp at h ⊢
    omega

/-! ## Auxiliary definitions for the statements -/

/-- Splitting a DMARC tag at its *first* `'='`, as the specification words it
("first `=` splits key from value; value may itself contain `=`"); `none` when
the tag holds no `'='`. -/
def splitAtFirstEq (t : String) : Option (String × String) :=
  match t.data.dropWhile (fun c => c != '=') with
  | _ :: rest => some (String.mk (t.data.takeWhile (fun c => c != '=')), String.mk rest)
  | [] => none

/-- The DMARC tag map as described by the specification: fold the trimmed,
nonempty tags, splitting each at its first `'='`, keeping those with a nonempty
key, binding trimmed key to trimmed value. -/
def specDmarcTagMap (record : String) : List (String × String) :=
  (dmarcTags record).foldl
    (fun m t =>
      match splitAtFirstEq t with
      | some kv => if kv.1 ≠ "" then setKV m (jsTrim kv.1) (jsTrim kv.2) else m
      | none => m)
    []

/-- The record's own effective `all` list (lines 258–266 of the SPF validator):
the singleton of the parsed record's `all` mechanism, or `[]` when the record
has none (or does not parse). -/
def ownAllOf (record : String) : List String :=
  match (parseSPFRecord record).bind (fun p => p.mechanisms.all) with
  | some a => [a]
  | none => []

/-! ### Concrete environments and inputs used by witnesses and counterexamples -/

/-- One domain publishing `v=spf1 -all`. -/
def envSingle : DnsEnv := fun d =>
  if d = "a.example.com" then .ok [["v=spf1 -all"]] else .error "boom"

/-- A parent whose record redirects to a target publishing `-all`. -/
def envRedirect : DnsEnv := fun d =>
  if d = "q.example.com" then .ok [["v=spf1 redirect=t.example.com"]]
  else if d = "t.example.com" then .ok [["v=spf1 ip4:5.6.7.8 -all"]]
  else .error "boom"

/-- A parent publishing *two* SPF records, the first of which redirects to a
target that itself resolves validly. -/
def envMultiRecord : DnsEnv := fun d =>
  if d = "p.example.com" then .ok [["v=spf1 redirect=t.example.com", "v=spf1 -all"]]
  else if d = "t.example.com" then .ok [["v=spf1 ip4:5.6.7.8 -all"]]
  else .error "boom"

/-- A domain publishing TXT records, none of which is an SPF record. -/
def envNoSpf : DnsEnv := fun d =>
  if d = "n.example.com" then .ok [["unrelated txt"], ["v=DMARC1; p=none"]] else .error "boom"

/-- An SPF record carrying eleven include mechanisms. -/
def wideRootRecord : String :=
  "v=spf1 include:l01.example.com include:l02.example.com include:l03.example.com include:l04.example.com include:l05.example.com include:l06.example.com include:l07.example.com include:l08.example.com include:l09.example.com include:l10.example.com include:l11.example.com -all"

/-- The eleven include targets of `wideRootRecord`. -/
def wideLeafDomains : List String :=
  ["l01.example.com", "l02.example.com", "l03.example.com", "l04.example.com",
   "l05.example.com", "l06.example.com", "l07.example.com", "l08.example.com",
   "l09.example.com", "l10.example.com", "l11.example.com"]

/-- The network for the include-budget scenario: one root whose record carries
eleven includes, each target publishing a plain `v=spf1 -all`. -/
def envWide : DnsEnv := fun d =>
  if d = "root.example.com" then .ok [[wideRootRecord]]
  else if wideLeafDomains.contains d then .ok [["v=spf1 -all"]]
  else .error "boom"

/-- An all-optimal scoring input: valid SPF with `-all`, one valid DKIM
selector with a 2048-bit key, valid DMARC with `p=reject` and an `rua` tag. -/
def allOptimalInput : EmailAuthResult :=
  { spf := { valid := true, record := some "v=spf1 ip4:1.2.3.4 -all", error := none,
             details := some ⟨1, [], [], ["-all"], [], []⟩ },
    dkim := { valid := true,
              selectors := [{ selector := "selector1", domain := "example.com", valid := true,
                              error := none,
                              record := some "v=DKIM1; k=rsa; bits=2048; p=AAAA" }],
              selector := none, record := none, error := none, details := none },
    dmarc := { valid := true, record := some "v=DMARC1; p=reject; rua=mailto:x@example.com",
               policy := some "reject", error := none } }

/-- A scoring input whose SPF evaluation is valid but whose effective `all`
qualifier is the permissive `+all`. -/
def plusAllInput : EmailAuthResult :=
  { spf := { valid := true, record := some "v=spf1 +all", error := none,
             details := some ⟨1, [], [], ["+all"], [], []⟩ },
    dkim := { valid := false, selectors := [], selector := none, record := none,
              error := none, details := none },
    dmarc := { valid := false, record := none, policy := none, error := none } }

/-! ## Theorems -/

/-- C8: For every successful MX resolution, each answer is parsed as a
priority/exchange pair and the returned sequence is sorted in ascending order
of priority; every malformed entry (non-numeric priority or empty exchange) is
dropped from the result — removing a malformed answer does not change the
output — rather than failing the whole resolution. -/
theorem processMxAnswers_sorted_dropping_malformed (answers : List String) :
    List.Sorted (fun a b : MxRecord => a.priority ≤ b.priority) (processMxAnswers answers) ∧
    (processMxAnswers answers).Perm (answers.filterMap parseMxData) ∧
    (∀ pre post d, parseMxData d = none →
      processMxAnswers (pre ++ d :: post) = processMxAnswers (pre ++ post)) := by
  refine ⟨?_, ?_, ?_⟩
  · haveI : IsTotal MxRecord (fun a b => a.priority ≤ b.priority) :=
      ⟨fun a b => le_total a.priority b.priority⟩
    haveI : IsTrans MxRecord (fun a b => a.priority ≤ b.priority) :=
      ⟨fun _ _ _ hab hbc => le_trans hab hbc⟩
    exact List.sorted_insertionSort _ _
  · exact List.perm_insertionSort _ _
  · intro pre post d hd
    simp [processMxAnswers, List.filterMap_append, List.filterMap_cons, hd]

/-- Witness for C8 at a concrete answer list containing a malformed entry. -/
theorem processMxAnswers_sorted_dropping_malformed_witness :
    processMxAnswers ["20 b.example.com.", "bad", "10 a.example.com."] =
      processMxAnswers ["20 b.example.com.", "10 a.example.com."] :=
  (processMxAnswers_sorted_dropping_malformed
      ["20 b.example.com.", "bad", "10 a.example.com."]).2.2
    ["20 b.example.com."] ["10 a.example.com."] "bad" (by decide)

/-- Appending strings concatenates the underlying character lists. -/
theorem strMk_append (a b : List Char) : String.mk a ++ String.mk b = String.mk (a ++ b) := rfl

/-- `joinSep` on a cons with a nonempty tail. -/
theorem joinSep_cons (sep s : String) (l : List String) (h : l ≠ []) :
    joinSep sep (s :: l) = s ++ sep ++ joinSep sep l := by
  cases l with
  | nil => exact absurd rfl h
  | cons a as => rfl

/-- `strSplitOnAux` never returns the empty list. -/
theorem strSplitOnAux_ne_nil (sep : Char) (cs acc : List Char) :
    strSplitOnAux sep cs acc ≠ [] := by
  induction cs generalizing acc with
  | nil => simp [strSplitOnAux]
  | cons c rest ih =>
    simp only [strSplitOnAux]
    split
    · simp
    · exact ih _

/-- Shape of `strSplitOnAux`: the first piece is the pending accumulator
followed by everything before the first separator; the remaining pieces are the
split of what follows it. -/
theorem strSplitOnAux_eq (sep : Char) (cs : List Char) : ∀ acc : List Char,
    strSplitOnAux sep cs acc =
      String.mk (acc.reverse ++ cs.takeWhile (fun c => c != sep)) ::
        (match cs.dropWhile (fun c => c != sep) with
         | [] => []
         | _ :: rest => strSplitOnAux sep rest []) := by
  induction cs with
  | nil => intro acc; simp [strSplitOnAux]
  | cons c rest ih =>
    intro acc
    by_cases hc : c = sep
    · subst hc
      simp [strSplitOnAux, List.takeWhile_cons, List.dropWhile_cons]
    · have hbne : (c != sep) = true := by simp [hc]
      simp only [strSplitOnAux, if_neg hc, List.takeWhile_cons, List.dropWhile_cons, hbne,
        if_pos rfl, ih (c :: acc)]
      simp

/-- Joining the pieces of `strSplitOnAux` with the separator restores the
input (prefixed by the pending accumulator). -/
theorem strSplitOnAux_join (sep : Char) (cs : List Char) : ∀ acc : List Char,
    joinSep (String.mk [sep]) (strSplitOnAux sep cs acc) = String.mk (acc.reverse ++ cs) := by
  induction cs with
  | nil => intro acc; simp [strSplitOnAux, joinSep]
  | cons c rest ih =>
    intro acc
    by_cases hc : c = sep
    · subst hc
      rw [show strSplitOnAux c (c :: rest) acc = String.mk acc.reverse :: strSplitOnAux c rest []
          from by simp [strSplitOnAux]]
      rw [joinSep_cons _ _ _ (strSplitOnAux_ne_nil c rest []), ih []]
      rw [strMk_append, strMk_append]
      simp
    · rw [show strSplitOnAux sep (c :: rest) acc = strSplitOnAux sep rest (c :: acc)
          from by simp [strSplitOnAux, hc]]
      rw [ih (c :: acc)]
      simp

/-- One step of the DMARC tag-map fold: the implementation's
`tag.split('=')`-then-rejoin treatment of a tag coincides with splitting the
tag at its first `'='`. -/
theorem dmarcTag_step_eq (m : List (String × String)) (t : String) :
    (match strSplitOn '=' t with
     | [] => m
     | key :: rest =>
       if key ≠ "" ∧ rest ≠ [] then setKV m (jsTrim key) (jsTrim (joinSep "=" rest)) else m) =
    (match splitAtFirstEq t with
     | some kv => if kv.1 ≠ "" then setKV m (jsTrim kv.1) (jsTrim kv.2) else m
     | none => m) := by
  unfold strSplitOn splitAtFirstEq
  rw [strSplitOnAux_eq '=' t.data []]
  cases hdrop : t.data.dropWhile (fun c => c != '=') with
  | nil => simp
  | cons c suffix =>
    have hne := strSplitOnAux_ne_nil '=' suffix []
    have hjoin : joinSep "=" (strSplitOnAux '=' suffix []) = String.mk suffix :=
      by simpa using strSplitOnAux_join '=' suffix []
    simp [hne, hjoin]

/-- The implementation's DMARC tag map equals the specification's description
(split each trimmed tag at its first `'='`; the value may itself contain `'='`). -/
theorem dmarcTagMap_eq_spec (record : String) :
    dmarcTagMap record = specDmarcTagMap record := by
  unfold dmarcTagMap specDmarcTagMap
  congr 1
  funext m t
  exact dmarcTag_step_eq m t

/-- C7 (amended): for every record beginning (case-insensitively, after
trimming) with the DMARC version prefix, the parser's tag map is the
first-`'='` split of the `';'`-separated tags; a missing **or empty-valued**
`p` tag yields the "missing required policy" error, a nonempty `p` value
outside `{none, quarantine, reject}` yields the "invalid policy value" error,
and otherwise the result is valid with that policy. -/
theorem parseDMARCRecord_tags_policy (record : String)
    (hne : record ≠ "")
    (hpre : strStartsWith (strToLower (jsTrim record)) "v=dmarc1" = true) :
    dmarcTagMap record = specDmarcTagMap record ∧
    (match getKV? (dmarcTagMap record) "p" with
     | none =>
       parseDMARCRecord record =
         { valid := false, policy := none, error := some "Missing required policy (p=) tag" }
     | some v =>
       if v = "" then
         parseDMARCRecord record =
           { valid := false, policy := none, error := some "Missing required policy (p=) tag" }
       else if v = "none" ∨ v = "quarantine" ∨ v = "reject" then
         parseDMARCRecord record = { valid := true, policy := some v, error := none }
       else
         parseDMARCRecord record =
           { valid := false, policy := none, error := some ("Invalid policy value: " ++ v) }) := by
  refine ⟨dmarcTagMap_eq_spec record, ?_⟩
  have hlow : strToLower dmarcVersionTag = "v=dmarc1" := by decide
  unfold parseDMARCRecord
  rw [hlow, if_neg (not_not_intro ⟨hne, hpre⟩)]
  cases hp : getKV? (dmarcTagMap record) "p" with
  | none => simp [strTruthy, hp]
  | some v =>
    by_cases hv : v = ""
    · subst hv
      simp [strTruthy, hp]
    · have htr : strTruthy (getKV? (dmarcTagMap record) "p") = true := by
        simp [strTruthy, hp, hv]
      rw [if_neg (by simp [htr])]
      by_cases hmem : v = "none" ∨ v = "quarantine" ∨ v = "reject"
      · simp only [hp, hv, if_neg hv, if_pos hmem]
        rw [if_neg (not_not_intro (by simpa [hp] using hmem))]
        simp [hp]
      · simp only [hp, if_neg hv, if_neg hmem]
        rw [if_pos (by simpa [hp] using hmem)]
        simp [hp]

/-- C7 counterexample: the record `v=DMARC1; p=` does carry a `p` tag — its
value is the empty string, which is outside `{none, quarantine, reject}` — yet
the parser reports the *missing required policy* error, not the *invalid policy
value* error the claim's case split predicts for it. -/
theorem parseDMARCRecord_empty_policy_counterexample :
    getKV? (dmarcTagMap "v=DMARC1; p=") "p" = some "" ∧
    ¬("" = "none" ∨ "" = "quarantine" ∨ "" = "reject") ∧
    parseDMARCRecord "v=DMARC1; p=" =
      { valid := false, policy := none, error := some "Missing required policy (p=) tag" } ∧
    (parseDMARCRecord "v=DMARC1; p=").error ≠ some ("Invalid policy value: " ++ "") := by
  refine ⟨by decide, by decide, by decide, by decide⟩

/-- Witness for C7 at the concrete record `v=DMARC1; p=quarantine`. -/
theorem parseDMARCRecord_tags_policy_witness :
    parseDMARCRecord "v=DMARC1; p=quarantine" =
      { valid := true, policy := some "quarantine", error := none } := by
  have h := (parseDMARCRecord_tags_policy "v=DMARC1; p=quarantine" (by decide) (by decide)).2
  have hp : getKV? (dmarcTagMap "v=DMARC1; p=quarantine") "p" = some "quarantine" := by decide
  rw [hp] at h
  simpa using h

/-- Reading back through a JavaScript-style map update. -/
theorem getKV?_setKV {α : Type} (m : List (String × α)) (k k' : String) (v : α) :
    getKV? (setKV m k v) k' = if k = k' then some v else getKV? m k' := by
  induction m with
  | nil =>
    by_cases h : k = k' <;> simp [setKV, getKV?, h]
  | cons hd tl ih =>
    by_cases hhd : hd.1 = k
    · by_cases h : k = k' <;>
        simp [setKV, getKV?, hhd, h, List.find?]
    · by_cases h : k = k'
      · subst h
        simp [setKV, getKV?, hhd, List.find?] at ih ⊢
        simp [hhd, ih]
      · simp [setKV, getKV?, hhd, h, List.find?] at ih ⊢
        by_cases hk' : hd.1 = k' <;> simp [hk', ih]

/-- The DKIM section writes only the three `dkim_*` detail keys. -/
theorem scoreDKIMSection_details_at (dkim : DKIMScoreInput) (st : ScoringState) (k : String)
    (h1 : "dkim_exists" ≠ k) (h2 : "dkim_key_strength" ≠ k)
    (h3 : "dkim_multiple_selectors_bonus" ≠ k) :
    getKV? (scoreDKIMSection dkim st).details k = getKV? st.details k := by
  unfold scoreDKIMSection
  dsimp only
  split_ifs <;> simp [getKV?_setKV, h1, h2, h3]

/-- The DMARC section writes only the three `dmarc_*` detail keys. -/
theorem scoreDMARCSection_details_at (dmarc : DMARCScoreInput) (st : ScoringState) (k : String)
    (h1 : "dmarc_exists" ≠ k) (h2 : "dmarc_policy" ≠ k) (h3 : "dmarc_rua_bonus" ≠ k) :
    getKV? (scoreDMARCSection dmarc st).details k = getKV? st.details k := by
  unfold scoreDMARCSection
  dsimp only
  split_ifs <;> simp [getKV?_setKV, h1, h2, h3]

/-- The DKIM and DMARC sections leave the four `spf_*` detail entries alone. -/
theorem sections_preserve_spf_details (dkim : DKIMScoreInput) (dmarc : DMARCScoreInput)
    (st : ScoringState) (k : String)
    (h : k = "spf_exists" ∨ k = "spf_syntax" ∨ k = "spf_all" ∨ k = "spf_no_plusall") :
    getKV? (scoreDMARCSection dmarc (scoreDKIMSection dkim st)).details k =
      getKV? st.details k := by
  rcases h with h | h | h | h <;> subst h <;>
    rw [scoreDMARCSection_details_at _ _ _ (by decide) (by decide) (by decide),
      scoreDKIMSection_details_at _ _ _ (by decide) (by decide) (by decide)]

/-- C10: the returned category scores and total are recomputed from the
`details` map (total is always the sum of the three categories), so the in-line
`spfScore -= 5` applied on the `+all` path never reaches the returned scores: a
valid SPF result whose record contains `v=spf1`, with no errors and effective
`all` qualifier `+all`, scores exactly 15 for SPF (10 existence + 5 syntax). -/
theorem calculateScore_recomputed_plusall (x : EmailAuthResult) (sr : String)
    (sd : SPFScoreDetails)
    (hv : x.spf.valid = true) (hr : x.spf.record = some sr)
    (hc : strContains sr "v=spf1" = true) (he : x.spf.error = none)
    (hd : x.spf.details = some sd) (hde : sd.errors = []) (ham : sd.allMechanisms = ["+all"]) :
    (calculateScore x).total =
      (calculateScore x).spf + (calculateScore x).dkim + (calculateScore x).dmarc ∧
    getKVInt (calculateScore x).details "spf_exists" = 10 ∧
    getKVInt (calculateScore x).details "spf_syntax" = 5 ∧
    getKVInt (calculateScore x).details "spf_all" = 0 ∧
    getKVInt (calculateScore x).details "spf_no_plusall" = 0 ∧
    (calculateScore x).spf = 15 := by
  obtain ⟨⟨sv, srec, serr, sdet⟩, dkimIn, dmarcIn⟩ := x
  dsimp only at hv hr he hd
  subst hv hr he hd
  obtain ⟨am1, am2, am3, am4, am5, am6⟩ := sd
  dsimp only at hde ham
  subst hde ham
  have hsec : scoreSPFSection ⟨true, some sr, none, some ⟨am1, am2, am3, ["+all"], am5, []⟩⟩
      ⟨0, 0, 0, 0, [], [], []⟩ =
      ⟨10, 0, 0, 0,
        [("spf_exists", (10 : Int)), ("spf_syntax", 5), ("spf_all", 0), ("spf_no_plusall", 0)],
        [("spf", "SPF uses permissive \"+all\" which is insecure.")],
        [("spf", "Remove or replace \"+all\" with \"-all\" or \"~all\" to prevent spoofing.")]⟩ := by
    unfold scoreSPFSection
    dsimp only
    rw [hc]
    decide
  refine ⟨rfl, ?_, ?_, ?_, ?_, ?_⟩ <;>
    · unfold calculateScore
      dsimp only
      rw [hsec]
      simp only [getKVInt]
      try rw [sections_preserve_spf_details dkimIn dmarcIn _ "spf_exists" (Or.inl rfl)]
      try rw [sections_preserve_spf_details dkimIn dmarcIn _ "spf_syntax" (Or.inr (Or.inl rfl))]
      try rw [sections_preserve_spf_details dkimIn dmarcIn _ "spf_all" (Or.inr (Or.inr (Or.inl rfl)))]
      try rw [sections_preserve_spf_details dkimIn dmarcIn _ "spf_no_plusall"
        (Or.inr (Or.inr (Or.inr rfl)))]
      decide

/-- Witness for C10 at the concrete `+all` scoring input. -/
theorem calculateScore_recomputed_plusall_witness :
    (calculateScore plusAllInput).spf = 15 :=
  (calculateScore_recomputed_plusall plusAllInput "v=spf1 +all" ⟨1, [], [], ["+all"], [], []⟩
    rfl rfl (by decide) rfl rfl rfl rfl).2.2.2.2.2


/-- C3 (amended): for every all-optimal input — valid SPF whose record holds
`v=spf1` with no errors and effective qualifier `-all`, one valid DKIM selector
whose key is at least 1024 bits, valid DMARC with `p=reject` and an `rua` tag —
the scoring engine returns a total of exactly 90, decomposed as 30 (SPF) +
25 (DKIM) + 35 (DMARC), the bonus entries being folded into the category sums. -/
theorem calculateScore_all_optimal (x : EmailAuthResult) (sr dr mr : String)
    (sd : SPFScoreDetails) (sel : DKIMSelectorOutcome)
    (hv : x.spf.valid = true) (hr : x.spf.record = some sr) (hc : strContains sr "v=spf1" = true)
    (he : x.spf.error = none) (hd : x.spf.details = some sd) (hde : sd.errors = [])
    (ham : sd.allMechanisms = ["-all"])
    (hsels : x.dkim.selectors = [sel]) (hsv : sel.valid = true) (hsr : sel.record = some dr)
    (hdr : dr ≠ "") (hbits : (1024 : Int) ≤ selBits dr)
    (hmv : x.dmarc.valid = true) (hmr : x.dmarc.record = some mr)
    (hmc : strContains mr "v=DMARC1" = true) (hpol : x.dmarc.policy = some "reject")
    (hrua : strContains (strToLower mr) "rua=" = true) :
    (calculateScore x).total = 90 ∧ (calculateScore x).spf = 30 ∧
    (calculateScore x).dkim = 25 ∧ (calculateScore x).dmarc = 35 := by
  obtain ⟨⟨sv, srec, serr, sdet⟩, ⟨dv, dsels, dsel, drec, derr, ddet⟩, ⟨mv, mrec, mpol, merr⟩⟩ := x
  dsimp only at hv hr he hd hsels hmv hmr hpol
  subst hv hr he hd hsels hmv hmr hpol
  obtain ⟨am1, am2, am3, am4, am5, am6⟩ := sd
  dsimp only at hde ham
  subst hde ham
  obtain ⟨s1, s2, selv, se2, selr⟩ := sel
  dsimp only at hsv hsr
  subst hsv hsr
  have hsecS : scoreSPFSection ⟨true, some sr, none, some ⟨am1, am2, am3, ["-all"], am5, []⟩⟩
      ⟨0, 0, 0, 0, [], [], []⟩ =
      ⟨30, 0, 0, 0,
        [("spf_exists", (10 : Int)), ("spf_syntax", 5), ("spf_all", 10), ("spf_no_plusall", 5)],
        [("spf", "SPF uses strict \"-all\" policy.")],
        [("spf", "No change needed. This is optimal.")]⟩ := by
    unfold scoreSPFSection
    dsimp only
    rw [hc]
    decide
  have hsecD : scoreDKIMSection ⟨dv, [⟨s1, s2, true, se2, some dr⟩], dsel, drec, derr, ddet⟩
      ⟨30, 0, 0, 0,
        [("spf_exists", (10 : Int)), ("spf_syntax", 5), ("spf_all", 10), ("spf_no_plusall", 5)],
        [("spf", "SPF uses strict \"-all\" policy.")],
        [("spf", "No change needed. This is optimal.")]⟩ =
      ⟨30, 25, 0, 0,
        [("spf_exists", (10 : Int)), ("spf_syntax", 5), ("spf_all", 10), ("spf_no_plusall", 5),
          ("dkim_exists", 15), ("dkim_key_strength", 10)],
        [("spf", "SPF uses strict \"-all\" policy."),
          ("dkim", "DKIM key strength is adequate (>=1024 bits).")],
        [("spf", "No change needed. This is optimal."),
          ("dkim", "No change needed. This is industry standard.")]⟩ := by
    unfold scoreDKIMSection
    simp only [List.any_cons, List.any_nil, List.length_cons, List.length_nil, List.foldl_cons,
      List.foldl_nil, Option.getD_some]
    dsimp only
    rw [show strTruthy (some dr) = true from by simp [strTruthy, hdr]]
    simp [show (selBits dr > 0) = True from eq_true (by omega),
      show (selBits dr ≥ 1024) = True from eq_true hbits]
    decide
  have hsecM : scoreDMARCSection ⟨true, some mr, some "reject", merr⟩
      ⟨30, 25, 0, 0,
        [("spf_exists", (10 : Int)), ("spf_syntax", 5), ("spf_all", 10), ("spf_no_plusall", 5),
          ("dkim_exists", 15), ("dkim_key_strength", 10)],
        [("spf", "SPF uses strict \"-all\" policy."),
          ("dkim", "DKIM key strength is adequate (>=1024 bits).")],
        [("spf", "No change needed. This is optimal."),
          ("dkim", "No change needed. This is industry standard.")]⟩ =
      ⟨30, 25, 30, 5,
        [("spf_exists", (10 : Int)), ("spf_syntax", 5), ("spf_all", 10), ("spf_no_plusall", 5),
          ("dkim_exists", 15), ("dkim_key_strength", 10), ("dmarc_exists", 10),
          ("dmarc_policy", 20), ("dmarc_rua_bonus", 5)],
        [("spf", "SPF uses strict \"-all\" policy."),
          ("dkim", "DKIM key strength is adequate (>=1024 bits)."),
          ("dmarc", "DMARC reporting (rua) is enabled.")],
        [("spf", "No change needed. This is optimal."),
          ("dkim", "No change needed. This is industry standard."),
          ("dmarc", "No change needed. Reporting is recommended.")]⟩ := by
    unfold scoreDMARCSection
    dsimp only
    simp [hmc, hrua]
    decide
  refine ⟨?_, ?_, ?_, ?_⟩ <;>
    · unfold calculateScore
      dsimp only
      rw [hsecS, hsecD, hsecM]
      decide

/-- C3 counterexample: at a concrete all-optimal input the engine returns 90
(= 30 + 25 + 35), not the claimed 75 (= 30 + 15 + 30). -/
theorem calculateScore_all_optimal_not_75 :
    (calculateScore allOptimalInput).total = 90 ∧
    (calculateScore allOptimalInput).spf = 30 ∧
    (calculateScore allOptimalInput).dkim = 25 ∧
    (calculateScore allOptimalInput).dmarc = 35 ∧
    (calculateScore allOptimalInput).total ≠ 75 := by
  refine ⟨by decide, by decide, by decide, by decide, by decide⟩

/-- Witness for C3 at the concrete all-optimal input. -/
theorem calculateScore_all_optimal_witness :
    (calculateScore allOptimalInput).total = 90 :=
  (calculateScore_all_optimal allOptimalInput "v=spf1 ip4:1.2.3.4 -all"
    "v=DKIM1; k=rsa; bits=2048; p=AAAA" "v=DMARC1; p=reject; rua=mailto:x@example.com"
    ⟨1, [], [], ["-all"], [], []⟩
    ⟨"selector1", "example.com", true, none, some "v=DKIM1; k=rsa; bits=2048; p=AAAA"⟩
    rfl rfl (by decide) rfl rfl rfl rfl rfl rfl rfl (by decide) (by decide)
    rfl rfl (by decide) rfl (by decide)).1

/-- Unfolding one fuel step of the evaluator. -/
theorem validateSPF_succ (env : DnsEnv) (fuel : Nat) (domain : String) (depth : Nat)
    (visited : List String) (ic : Nat) :
    validateSPF env (fuel + 1) domain depth visited ic =
      spfStep env (fun d dp vs c => validateSPF env fuel d dp vs c) domain depth visited ic := rfl

/-- C4: for every domain that resolves but publishes no TXT record starting
with `v=spf1`, the evaluator returns `isValid = false`, the single error
`"No SPF record found"` and `dnsLookupCount = 0` (having queried the resolver
once, for the domain itself). -/
theorem validateSPF_no_spf_record (env : DnsEnv) (fuel : Nat) (domain dom : String)
    (txts : List (List String))
    (hdom : cleanDomain domain = some dom) (henv : env dom = .ok txts)
    (hno : txts.flatten.filter (fun r => strStartsWith (jsTrim r) spfVersionTag) = []) :
    validateSPF env (fuel + 1) domain 0 [] 0 =
      some (.mk false none ["No SPF record found"] [] 0 [] [] [], [dom]) := by
  rw [validateSPF_succ]
  unfold spfStep
  rw [if_neg (by omega), hdom]
  dsimp only
  rw [if_neg (by omega), if_neg (by simp), henv]
  dsimp only
  rw [hno]

/-- C5: for every syntactically valid domain, a call with `depth` above the
recursion bound returns the maximum-recursion-depth failure at once, with
`dnsLookupCount = 0` and no resolver query (empty trace); the include budget
must not already be blown, since that check precedes the depth check. -/
theorem validateSPF_depth_exceeded (env : DnsEnv) (fuel : Nat) (domain dom : String)
    (depth : Nat) (visited : List String) (ic : Nat)
    (hic : ic ≤ MAX_INCLUDES) (hdom : cleanDomain domain = some dom)
    (hdepth : depth > MAX_RECURSION_DEPTH) :
    validateSPF env (fuel + 1) domain depth visited ic =
      some (spfFailure ["Maximum recursion depth (5) exceeded"], []) := by
  rw [validateSPF_succ]
  unfold spfStep
  rw [if_neg (by omega), hdom]
  dsimp only
  rw [if_pos hdepth]
  rfl

/-- C6: whenever the cleaned domain is already among the visited parent
domains (and neither the include budget nor the depth bound has tripped
first), the evaluator returns the circular-reference failure naming the full
visited chain followed by the repeated domain, with no resolver query for that
node. -/
theorem validateSPF_circular_reference (env : DnsEnv) (fuel : Nat) (domain dom : String)
    (depth : Nat) (visited : List String) (ic : Nat)
    (hic : ic ≤ MAX_INCLUDES) (hdom : cleanDomain domain = some dom)
    (hdepth : depth ≤ MAX_RECURSION_DEPTH) (hvis : visited.contains dom = true) :
    validateSPF env (fuel + 1) domain depth visited ic =
      some (spfFailure
        ["Circular reference detected in SPF records: " ++
          joinSep " -> " visited ++ " -> " ++ dom], []) := by
  rw [validateSPF_succ]
  unfold spfStep
  rw [if_neg (by omega), hdom]
  dsimp only
  rw [if_neg (by omega), if_pos hvis]

/-- Witness for C4: `n.example.com` publishes TXT records, none of them SPF. -/
theorem validateSPF_no_spf_record_witness :
    validateSPF envNoSpf 10 "n.example.com" 0 [] 0 =
      some (.mk false none ["No SPF record found"] [] 0 [] [] [], ["n.example.com"]) :=
  validateSPF_no_spf_record envNoSpf 9 "n.example.com" "n.example.com"
    [["unrelated txt"], ["v=DMARC1; p=none"]] (by decide) rfl (by decide)

/-- Witness for C5: evaluating `a.example.com` with `depth = 6`. -/
theorem validateSPF_depth_exceeded_witness :
    validateSPF envSingle 10 "a.example.com" 6 [] 0 =
      some (spfFailure ["Maximum recursion depth (5) exceeded"], []) :=
  validateSPF_depth_exceeded envSingle 9 "a.example.com" "a.example.com" 6 [] 0
    (by decide) (by decide) (by decide)

/-- Witness for C6: re-entering `a.example.com` after the chain
`a.example.com -> b.example.com`. -/
theorem validateSPF_circular_reference_witness :
    validateSPF envSingle 10 "a.example.com" 2 ["a.example.com", "b.example.com"] 2 =
      some (spfFailure
        ["Circular reference detected in SPF records: a.example.com -> b.example.com -> a.example.com"],
        []) :=
  validateSPF_circular_reference envSingle 9 "a.example.com" "a.example.com" 2
    ["a.example.com", "b.example.com"] 2 (by decide) (by decide) (by decide) (by decide)

/-- C2: the include/redirect budget is not cumulative across siblings.  The
record of `root.example.com` carries eleven include mechanisms — a cumulative
include count of 11 > 10 — yet the evaluator (entered with the default
`includeCount = 0`) processes all eleven includes, issues twelve resolver
queries, accumulates twelve DNS lookups, reports no error and returns a valid
result: each sibling recursion is passed `includeCount + 1` of the *parent's*
counter, so the budget only bounds nesting depth, never the total. -/
theorem validateSPF_include_budget_not_cumulative :
    (parseSPFRecord wideRootRecord).map (fun r => r.mechanisms.includeMechs.length) = some 11 ∧
    (validateSPF envWide 20 "root.example.com" 0 [] 0).map
      (fun p => (p.1.isValid, p.1.errors, p.1.includes.length, p.2.length, p.1.dnsLookupCount)) =
      some (true, [], 11, 12, 12) := by
  refine ⟨by decide, by decide⟩

/-- `allMechOK` at a constructor, in membership form. -/
theorem allMechOK_mk (v : Bool) (rec : Option String) (errs warns : List String) (n : Nat)
    (incs reds : List (String × SPFValidationResult)) (ams : List String) :
    allMechOK (.mk v rec errs warns n incs reds ams) = true ↔
      (ams.length ≤ 1 ∧ (∀ p ∈ incs, allMechOK p.2 = true) ∧
        (∀ p ∈ reds, allMechOK p.2 = true)) := by
  rw [allMechOK]
  simp only [Bool.and_eq_true, List.all_eq_true, decide_eq_true_eq]
  exact ⟨fun ⟨ha, hb, hc⟩ => ⟨ha, fun p hp => hb ⟨p, hp⟩ (List.mem_attach _ _),
      fun p hp => hc ⟨p, hp⟩ (List.mem_attach _ _)⟩,
    fun ⟨ha, hb, hc⟩ => ⟨ha, fun x _ => hb x.1 x.2, fun x _ => hc x.1 x.2⟩⟩

/-- Every early-failure literal satisfies the invariant. -/
theorem allMechOK_spfFailure (e : List String) : allMechOK (spfFailure e) = true := by
  unfold spfFailure
  rw [allMechOK_mk]
  simp

/-- The invariant bounds the `allMechanisms` field. -/
theorem allMechOK_length (r : SPFValidationResult) (h : allMechOK r = true) :
    r.allMechanisms.length ≤ 1 := by
  obtain ⟨v, rec, errs, warns, n, incs, reds, ams⟩ := r
  exact ((allMechOK_mk v rec errs warns n incs reds ams).mp h).1

/-- The include loop preserves the invariant on its accumulated child list,
provided every recursive result satisfies it. -/
theorem processIncludes_includes_ok
    (recur : String → Option (SPFValidationResult × List String)) (ic : Nat)
    (hrec : ∀ inc r tr, recur inc = some (r, tr) → allMechOK r = true) :
    ∀ (l : List String) (st st' : IncState),
      (∀ p ∈ st.includes, allMechOK p.2 = true) →
      processIncludes recur ic st l = some st' →
      ∀ p ∈ st'.includes, allMechOK p.2 = true := by
  intro l
  induction l with
  | nil =>
    intro st st' hst h
    simp only [processIncludes, Option.some.injEq] at h
    subst h
    exact hst
  | cons inc rest ih =>
    intro st st' hst h
    simp only [processIncludes] at h
    split at h
    · simp only [Option.some.injEq] at h
      subst h
      exact hst
    · cases hr : recur inc with
      | none => rw [hr] at h; cases h
      | some pr =>
        obtain ⟨r0, tr0⟩ := pr
        rw [hr] at h
        refine ih _ _ ?_ h
        intro p hp
        split at hp <;>
        · dsimp only at hp
          rcases List.mem_append.mp hp with hmem | hmem
          · exact hst p hmem
          · rcases List.mem_singleton.mp hmem with rfl
            exact hrec inc r0 tr0 hr

/-- One evaluator step preserves the at-most-one-`all` invariant, provided
every recursive result satisfies it. -/
theorem spfStep_allMechOK (env : DnsEnv)
    (recur : String → Nat → List String → Nat → Option (SPFValidationResult × List String))
    (hrec : ∀ d dp vs c r tr, recur d dp vs c = some (r, tr) → allMechOK r = true)
    (domain : String) (depth : Nat) (visited : List String) (ic : Nat)
    (r : SPFValidationResult) (tr : List String)
    (h : spfStep env recur domain depth visited ic = some (r, tr)) : allMechOK r = true := by
  unfold spfStep at h
  by_cases hb1 : ic > MAX_INCLUDES
  · rw [if_pos hb1] at h
    simp only [Option.some.injEq, Prod.mk.injEq] at h
    obtain ⟨rfl, -⟩ := h
    exact allMechOK_spfFailure _
  · rw [if_neg hb1] at h
    cases hdom : cleanDomain domain with
    | none =>
      rw [hdom] at h
      simp only [Option.some.injEq, Prod.mk.injEq] at h
      obtain ⟨rfl, -⟩ := h
      exact allMechOK_spfFailure _
    | some dom =>
      rw [hdom] at h
      dsimp only at h
      by_cases hb2 : depth > MAX_RECURSION_DEPTH
      · rw [if_pos hb2] at h
        simp only [Option.some.injEq, Prod.mk.injEq] at h
        obtain ⟨rfl, -⟩ := h
        exact allMechOK_spfFailure _
      · rw [if_neg hb2] at h
        by_cases hb3 : visited.contains dom = true
        · rw [if_pos hb3] at h
          simp only [Option.some.injEq, Prod.mk.injEq] at h
          obtain ⟨rfl, -⟩ := h
          exact allMechOK_spfFailure _
        · rw [if_neg hb3] at h
          cases henv : env dom with
          | error msg =>
            rw [henv] at h
            dsimp only at h
            simp only [Option.some.injEq, Prod.mk.injEq] at h
            obtain ⟨rfl, -⟩ := h
            exact allMechOK_spfFailure _
          | ok txts =>
            rw [henv] at h
            dsimp only at h
            cases hfil : txts.flatten.filter (fun r0 => strStartsWith (jsTrim r0) spfVersionTag) with
            | nil =>
              rw [hfil] at h
              dsimp only at h
              simp only [Option.some.injEq, Prod.mk.injEq] at h
              obtain ⟨rfl, -⟩ := h
              rw [allMechOK_mk]
              simp
            | cons spfRecord restRecords =>
              rw [hfil] at h
              dsimp only at h
              cases hparse : parseSPFRecord spfRecord with
              | none =>
                rw [hparse] at h
                dsimp only at h
                simp only [Option.some.injEq, Prod.mk.injEq] at h
                obtain ⟨rfl, -⟩ := h
                rw [allMechOK_mk]
                simp
              | some parsedRecord =>
                rw [hparse] at h
                dsimp only at h
                split at h
                · exact absurd h (by simp)
                · rename_i st1 hpi
                  have hkids : ∀ p ∈ st1.includes, allMechOK p.2 = true := by
                    refine processIncludes_includes_ok _ _
                      (fun inc r0 tr0 h0 => hrec inc _ _ _ r0 tr0 h0) _ _ _ ?_ hpi
                    intro p hp
                    simp at hp
                  split at h
                  · cases hred : parsedRecord.mechanisms.redirect with
                    | some redirectDomain =>
                      rw [hred] at h
                      dsimp only at h
                      by_cases hb4 : ic ≥ MAX_INCLUDES
                      · rw [if_pos hb4] at h
                        simp only [Option.some.injEq, Prod.mk.injEq] at h
                        obtain ⟨rfl, -⟩ := h
                        rw [allMechOK_mk]
                        refine ⟨?_, hkids, by simp⟩
                        cases parsedRecord.mechanisms.all <;> simp
                      · rw [if_neg hb4] at h
                        cases hredir : recur redirectDomain (depth + 1) (visited ++ [dom]) (ic + 1) with
                        | none => rw [hredir] at h; cases h
                        | some pr =>
                          obtain ⟨rres, rtr⟩ := pr
                          rw [hredir] at h
                          dsimp only at h
                          by_cases hb5 : rres.isValid = true
                          · rw [if_pos hb5] at h
                            simp only [Option.some.injEq, Prod.mk.injEq] at h
                            obtain ⟨rfl, -⟩ := h
                            rw [allMechOK_mk]
                            refine ⟨allMechOK_length _ (hrec _ _ _ _ _ _ hredir), hkids, ?_⟩
                            intro p hp
                            rcases List.mem_singleton.mp hp with rfl
                            exact hrec _ _ _ _ _ _ hredir
                          · rw [if_neg hb5] at h
                            simp only [Option.some.injEq, Prod.mk.injEq] at h
                            obtain ⟨rfl, -⟩ := h
                            rw [allMechOK_mk]
                            refine ⟨?_, hkids, ?_⟩
                            · cases parsedRecord.mechanisms.all <;> simp
                            · intro p hp
                              rcases List.mem_singleton.mp hp with rfl
                              exact hrec _ _ _ _ _ _ hredir
                    | none =>
                      rw [hred] at h
                      dsimp only at h
                      simp only [Option.some.injEq, Prod.mk.injEq] at h
                      obtain ⟨rfl, -⟩ := h
                      rw [allMechOK_mk]
                      refine ⟨?_, hkids, by simp⟩
                      cases parsedRecord.mechanisms.all <;> simp
                  · simp only [Option.some.injEq, Prod.mk.injEq] at h
                    obtain ⟨rfl, -⟩ := h
                    rw [allMechOK_mk]
                    refine ⟨?_, hkids, by simp⟩
                    cases parsedRecord.mechanisms.all <;> simp

/-- C9: every result the SPF evaluator returns — including every node nested
inside `includes` and `redirects` — carries an `allMechanisms` list of length
at most one: it is either empty or the singleton of one effective `all`
qualifier. -/
theorem validateSPF_allMechanisms_at_most_one :
    ∀ (fuel : Nat) (env : DnsEnv) (domain : String) (depth : Nat) (visited : List String)
      (ic : Nat) (r : SPFValidationResult) (tr : List String),
      validateSPF env fuel domain depth visited ic = some (r, tr) → allMechOK r = true := by
  intro fuel
  induction fuel with
  | zero =>
    intro env domain depth visited ic r tr h
    rw [show validateSPF env 0 domain depth visited ic = none from rfl] at h
    cases h
  | succ n ih =>
    intro env domain depth visited ic r tr h
    rw [validateSPF_succ] at h
    exact spfStep_allMechOK env _ (fun d dp vs c r0 tr0 h0 => ih env d dp vs c r0 tr0 h0)
      domain depth visited ic r tr h

/-- Witness for C9 on a concrete evaluation with both an include-free leaf and
a redirect child. -/
theorem validateSPF_allMechanisms_at_most_one_witness :
    (validateSPF envRedirect 10 "q.example.com" 0 [] 0).map (fun p => allMechOK p.1) =
      some true := by
  cases hv : validateSPF envRedirect 10 "q.example.com" 0 [] 0 with
  | none =>
    have hs : (validateSPF envRedirect 10 "q.example.com" 0 [] 0).isSome = true := rfl
    rw [hv] at hs
    simp at hs
  | some pr =>
    simp only [Option.map_some', Option.some.injEq]
    rw [validateSPF_allMechanisms_at_most_one 10 envRedirect "q.example.com" 0 [] 0 pr.1 pr.2
      (by rw [hv])]

/-- Branch analysis of one evaluator step for the effective-`all` rule: when
the step found a record, its `allMechanisms` equals the redirect child's
`allMechanisms` exactly when such a child was recorded and is valid; in every
other case it is the record's own `all` singleton (or empty). -/
theorem spfStep_allMechanisms_source (env : DnsEnv)
    (recur : String → Nat → List String → Nat → Option (SPFValidationResult × List String))
    (domain : String) (depth : Nat) (visited : List String) (ic : Nat)
    (r : SPFValidationResult) (tr : List String) (rec : String)
    (h : spfStep env recur domain depth visited ic = some (r, tr))
    (hrecord : r.record = some rec) :
    (match r.redirects with
     | [(_, tres)] =>
       r.allMechanisms = (if tres.isValid then tres.allMechanisms else ownAllOf rec)
     | _ => r.allMechanisms = ownAllOf rec) := by
  unfold spfStep at h
  by_cases hb1 : ic > MAX_INCLUDES
  · rw [if_pos hb1] at h
    simp only [Option.some.injEq, Prod.mk.injEq] at h
    obtain ⟨rfl, -⟩ := h
    simp [spfFailure, SPFValidationResult.record] at hrecord
  · rw [if_neg hb1] at h
    cases hdom : cleanDomain domain with
    | none =>
      rw [hdom] at h
      simp only [Option.some.injEq, Prod.mk.injEq] at h
      obtain ⟨rfl, -⟩ := h
      simp [spfFailure, SPFValidationResult.record] at hrecord
    | some dom =>
      rw [hdom] at h
      dsimp only at h
      by_cases hb2 : depth > MAX_RECURSION_DEPTH
      · rw [if_pos hb2] at h
        simp only [Option.some.injEq, Prod.mk.injEq] at h
        obtain ⟨rfl, -⟩ := h
        simp [spfFailure, SPFValidationResult.record] at hrecord
      · rw [if_neg hb2] at h
        by_cases hb3 : visited.contains dom = true
        · rw [if_pos hb3] at h
          simp only [Option.some.injEq, Prod.mk.injEq] at h
          obtain ⟨rfl, -⟩ := h
          simp [spfFailure, SPFValidationResult.record] at hrecord
        · rw [if_neg hb3] at h
          cases henv : env dom with
          | error msg =>
            rw [henv] at h
            dsimp only at h
            simp only [Option.some.injEq, Prod.mk.injEq] at h
            obtain ⟨rfl, -⟩ := h
            simp [spfFailure, SPFValidationResult.record] at hrecord
          | ok txts =>
            rw [henv] at h
            dsimp only at h
            cases hfil : txts.flatten.filter (fun r0 => strStartsWith (jsTrim r0) spfVersionTag) with
            | nil =>
              rw [hfil] at h
              dsimp only at h
              simp only [Option.some.injEq, Prod.mk.injEq] at h
              obtain ⟨rfl, -⟩ := h
              simp [SPFValidationResult.record] at hrecord
            | cons spfRecord restRecords =>
              rw [hfil] at h
              dsimp only at h
              cases hparse : parseSPFRecord spfRecord with
              | none =>
                rw [hparse] at h
                dsimp only at h
                simp only [Option.some.injEq, Prod.mk.injEq] at h
                obtain ⟨rfl, -⟩ := h
                dsimp only [SPFValidationResult.record] at hrecord
                simp only [Option.some.injEq] at hrecord
                subst hrecord
                dsimp only [SPFValidationResult.redirects, SPFValidationResult.allMechanisms]
                unfold ownAllOf
                rw [hparse]
                rfl
              | some parsedRecord =>
                rw [hparse] at h
                dsimp only at h
                split at h
                · exact absurd h (by simp)
                · rename_i st1 hpi
                  have hown : ownAllOf spfRecord =
                      (match parsedRecord.mechanisms.all with
                       | some a => [a]
                       | none => []) := by
                    unfold ownAllOf
                    rw [hparse]
                    rfl
                  split at h
                  · cases hred : parsedRecord.mechanisms.redirect with
                    | some redirectDomain =>
                      rw [hred] at h
                      dsimp only at h
                      by_cases hb4 : ic ≥ MAX_INCLUDES
                      · rw [if_pos hb4] at h
                        simp only [Option.some.injEq, Prod.mk.injEq] at h
                        obtain ⟨rfl, -⟩ := h
                        dsimp only [SPFValidationResult.record] at hrecord
                        simp only [Option.some.injEq] at hrecord
                        subst hrecord
                        dsimp only [SPFValidationResult.redirects, SPFValidationResult.allMechanisms]
                        rw [hown]
                      · rw [if_neg hb4] at h
                        cases hredir : recur redirectDomain (depth + 1) (visited ++ [dom]) (ic + 1) with
                        | none => rw [hredir] at h; cases h
                        | some pr =>
                          obtain ⟨rres, rtr⟩ := pr
                          rw [hredir] at h
                          dsimp only at h
                          by_cases hb5 : rres.isValid = true
                          · rw [if_pos hb5] at h
                            simp only [Option.some.injEq, Prod.mk.injEq] at h
                            obtain ⟨rfl, -⟩ := h
                            dsimp only [SPFValidationResult.record] at hrecord
                            simp only [Option.some.injEq] at hrecord
                            subst hrecord
                            dsimp only [SPFValidationResult.redirects, SPFValidationResult.allMechanisms]
                            rw [if_pos hb5]
                          · rw [if_neg hb5] at h
                            simp only [Option.some.injEq, Prod.mk.injEq] at h
                            obtain ⟨rfl, -⟩ := h
                            dsimp only [SPFValidationResult.record] at hrecord
                            simp only [Option.some.injEq] at hrecord
                            subst hrecord
                            dsimp only [SPFValidationResult.redirects, SPFValidationResult.allMechanisms]
                            rw [if_neg hb5, hown]
                    | none =>
                      rw [hred] at h
                      dsimp only at h
                      simp only [Option.some.injEq, Prod.mk.injEq] at h
                      obtain ⟨rfl, -⟩ := h
                      dsimp only [SPFValidationResult.record] at hrecord
                      simp only [Option.some.injEq] at hrecord
                      subst hrecord
                      dsimp only [SPFValidationResult.redirects, SPFValidationResult.allMechanisms]
                      rw [hown]
                  · simp only [Option.some.injEq, Prod.mk.injEq] at h
                    obtain ⟨rfl, -⟩ := h
                    dsimp only [SPFValidationResult.record] at hrecord
                    simp only [Option.some.injEq] at hrecord
                    subst hrecord
                    dsimp only [SPFValidationResult.redirects, SPFValidationResult.allMechanisms]
                    rw [hown]

/-- C1 (amended): for every evaluation that found an SPF record, the returned
`allMechanisms` equals the redirect child's `allMechanisms` exactly when a
redirect child was recorded in `redirects` and that child is valid — which
requires the evaluation to be otherwise unimpaired: a single published SPF
record, all includes valid and the include budget not exhausted.  In every
other case `allMechanisms` is the singleton of the record's own `all`
qualifier, or empty when the record has none. -/
theorem spf_allMechanisms_redirect_characterization (env : DnsEnv) (fuel : Nat)
    (domain : String) (depth : Nat) (visited : List String) (ic : Nat)
    (r : SPFValidationResult) (tr : List String) (rec : String)
    (h : validateSPF env fuel domain depth visited ic = some (r, tr))
    (hrecord : r.record = some rec) :
    (match r.redirects with
     | [(_, tres)] =>
       r.allMechanisms = (if tres.isValid then tres.allMechanisms else ownAllOf rec)
     | _ => r.allMechanisms = ownAllOf rec) := by
  cases fuel with
  | zero =>
    rw [show validateSPF env 0 domain depth visited ic = none from rfl] at h
    cases h
  | succ n =>
    rw [validateSPF_succ] at h
    exact spfStep_allMechanisms_source env _ domain depth visited ic r tr rec h hrecord

/-- C1 counterexample: `p.example.com` publishes two SPF records; the first
carries `redirect=t.example.com`, it has no includes (so all includes trivially
succeeded), and the redirect target standalone resolves validly with
`allMechanisms = ["-all"]` — yet the parent's returned `allMechanisms` is `[]`
(its own, absent, qualifier), not the target's, because the multiple-record
error already invalidated the result and the redirect was never followed. -/
theorem spf_redirect_multiple_records_counterexample :
    (validateSPF envMultiRecord 10 "p.example.com" 0 [] 0).map
      (fun p => (p.1.record, p.1.isValid, p.1.includes.length, p.1.redirects.length,
        p.1.allMechanisms)) =
      some (some "v=spf1 redirect=t.example.com", false, 0, 0, []) ∧
    (parseSPFRecord "v=spf1 redirect=t.example.com").map (fun p => p.mechanisms.redirect) =
      some (some "t.example.com") ∧
    (validateSPF envMultiRecord 10 "t.example.com" 1 ["p.example.com"] 1).map
      (fun p => (p.1.isValid, p.1.allMechanisms)) = some (true, ["-all"]) ∧
    ([] : List String) ≠ ["-all"] := by
  refine ⟨by decide, by decide, by decide, by decide⟩

/-- Witness for C1 on the concrete redirect evaluation of `q.example.com`. -/
theorem spf_allMechanisms_redirect_characterization_witness :
    (match (SPFValidationResult.mk true (some "v=spf1 redirect=t.example.com") [] [] 2 []
        [("t.example.com",
          SPFValidationResult.mk true (some "v=spf1 ip4:5.6.7.8 -all") [] [] 1 [] [] ["-all"])]
        ["-all"]).redirects with
     | [(_, tres)] =>
       (SPFValidationResult.mk true (some "v=spf1 redirect=t.example.com") [] [] 2 []
          [("t.example.com",
            SPFValidationResult.mk true (some "v=spf1 ip4:5.6.7.8 -all") [] [] 1 [] [] ["-all"])]
          ["-all"]).allMechanisms =
         (if tres.isValid then tres.allMechanisms
          else ownAllOf "v=spf1 redirect=t.example.com")
     | _ =>
       (SPFValidationResult.mk true (some "v=spf1 redirect=t.example.com") [] [] 2 []
          [("t.example.com",
            SPFValidationResult.mk true (some "v=spf1 ip4:5.6.7.8 -all") [] [] 1 [] [] ["-all"])]
          ["-all"]).allMechanisms = ownAllOf "v=spf1 redirect=t.example.com") :=
  spf_allMechanisms_redirect_characterization envRedirect 10 "q.example.com" 0 [] 0
    (SPFValidationResult.mk true (some "v=spf1 redirect=t.example.com") [] [] 2 []
      [("t.example.com",
        SPFValidationResult.mk true (some "v=spf1 ip4:5.6.7.8 -all") [] [] 1 [] [] ["-all"])]
      ["-all"])
    ["q.example.com", "t.example.com"] "v=spf1 redirect=t.example.com" rfl rfl
